import Mathlib

/-!
# requitec: opcode classification and the expression opcode state machine

A shallow embedding of `include/requite/detail/opcode.hpp` and
`include/requite/detail/expression_type.hpp`, followed by the properties
established about them.

* Enumerations become inductive types whose constructors keep the source order.
* `std::uint32_t` flag words are natural numbers combined with `|||` and `&&&`;
  every flag constant is `1 <<< k` with `k < 32`, so no operation wraps.
* A member function that can hit `REQUITE_ASSERT` returns an `Outcome`, which
  records whether the call returned and the state of the object at that point.
-/

namespace requite

/-! ## Opcode flags (`requite::_opcode::_OpcodeFlags`) -/

namespace _opcode

/-- The underlying type of the flag enumeration, `std::uint32_t`. -/
abbrev _OpcodeFlags := Nat

def _NONE : _OpcodeFlags := 0
def _CONVERGING : _OpcodeFlags := 1 <<< 0
def _INTERNAL_USE_ONLY : _OpcodeFlags := 1 <<< 1
def _INTERMEDIATE_OPERATION : _OpcodeFlags := 1 <<< 2
def _BASE_STATEMENT : _OpcodeFlags := 1 <<< 3
def _TABLE_STATEMENT : _OpcodeFlags := 1 <<< 4
def _MATTE_LOCAL_STATEMENT : _OpcodeFlags := 1 <<< 5
def _VALUE_REFLECTIVE_LOCAL_STATEMENT : _OpcodeFlags := 1 <<< 6
def _SYMBOL_REFLECTIVE_LOCAL_STATEMENT : _OpcodeFlags := 1 <<< 7
def _OBJECT_STATEMENT : _OpcodeFlags := 1 <<< 8
def _MATTE_DESTINATION : _OpcodeFlags := 1 <<< 9
def _VALUE_REFLECTIVE_DESTINATION : _OpcodeFlags := 1 <<< 10
def _SYMBOL_REFLECTIVE_DESTINATION : _OpcodeFlags := 1 <<< 11
def _MATTE_VALUE : _OpcodeFlags := 1 <<< 12
def _VALUE_REFLECTIVE_VALUE : _OpcodeFlags := 1 <<< 13
def _SYMBOL_REFLECTIVE_VALUE : _OpcodeFlags := 1 <<< 15
def _MATTE_JUNCTION : _OpcodeFlags := 1 <<< 16
def _VALUE_REFLECTIVE_JUNCTION : _OpcodeFlags := 1 <<< 17
def _SYMBOL_REFLECTIVE_JUNCTION : _OpcodeFlags := 1 <<< 18
def _MATTE_SYMBOL : _OpcodeFlags := 1 <<< 19
def _VALUE_REFLECTIVE_SYMBOL : _OpcodeFlags := 1 <<< 20
def _SYMBOL_REFLECTIVE_SYMBOL : _OpcodeFlags := 1 <<< 21

def _ANY : _OpcodeFlags :=
  _BASE_STATEMENT ||| _TABLE_STATEMENT ||| _MATTE_LOCAL_STATEMENT |||
  _VALUE_REFLECTIVE_LOCAL_STATEMENT ||| _SYMBOL_REFLECTIVE_LOCAL_STATEMENT |||
  _OBJECT_STATEMENT ||| _MATTE_DESTINATION ||| _VALUE_REFLECTIVE_DESTINATION |||
  _SYMBOL_REFLECTIVE_DESTINATION ||| _MATTE_VALUE ||| _VALUE_REFLECTIVE_VALUE |||
  _SYMBOL_REFLECTIVE_VALUE ||| _MATTE_JUNCTION ||| _VALUE_REFLECTIVE_JUNCTION |||
  _SYMBOL_REFLECTIVE_JUNCTION ||| _MATTE_SYMBOL ||| _VALUE_REFLECTIVE_SYMBOL |||
  _SYMBOL_REFLECTIVE_SYMBOL

end _opcode

/-! ## The opcode enumeration -/

/-- Modelled from the spec: the declaration of `enum class Opcode : std::uint32_t`
(`requite/opcode.hpp`) is not among the sources. The enumerators are exactly the
case labels of the exhaustive switches in `_getFlags` and `getName`, which list
them in one and the same order; that order is taken as the declaration order: the
none sentinel first, the five literal kinds next, then the error sentinel and the
operations, and the end marker `__LAST` last. An enumerator's position is its
constructor index. -/
inductive Opcode where
  | __NONE
  -- LITERALS
  | __INTEGER_LITERAL
  | __REAL_LITERAL
  | __STRING_LITERAL
  | __CODEUNIT_LITERAL
  | __IDENTIFIER_LITERAL
  -- ERROR
  | __ERROR
  -- SITUATIONAL
  | _CALL_OR_SIGNATURE
  | _BIND_VALUE_OR_DEFAULT_VALUE
  | _BIND_SYMBOL_OR_DEFAULT_SYMBOL
  | _TRIP
  | _CONDUIT
  | _QUESTION
  -- LOGICAL
  | _LOGICAL_AND
  | _LOGICAL_OR
  | _LOGICAL_COMPLEMENT
  -- COMPAIRSON
  | _GREATER
  | _GREATER_EQUAL
  | _LESS
  | _LESS_EQUAL
  | _EQUAL
  | _NOT_EQUAL
  -- REFLECT
  | _REFLECT_VALUE
  | _REFLECT_SYMBOL
  -- MEMBERS
  | _MEMBER_VALUE_OF_VALUE_PATH
  | _MEMBER_SYMBOL_OF_VALUE_PATH
  | _MEMBER_VALUE_OF_SYMBOL_PATH
  | _MEMBER_SYMBOL_OF_SYMBOL_PATH
  -- EXTENSIONS
  | _EXTENSION_SYMBOL_OF_VALUE
  | _EXTENSION_SYMBOL_OF_SYMBOL
  -- BIND
  | _BIND_VALUE
  | _BIND_SYMBOL
  | _DEFAULT_VALUE
  | _DEFAULT_SYMBOL
  -- APPLY
  | _ASCRIBE_LAST_BRANCH
  | _ASCRIBE_FIRST_BRANCH
  | _CAST
  | STRINGIFY
  | CODEUNIFY
  | _IDENTIFY
  -- ARITHMETIC
  | _ADD
  | _SUBTRACT
  | _MULTIPLY
  | _DIVIDE
  | _MODULUS
  | _NEGATE
  -- BITWISE
  | _BITWISE_CAST
  | _BITWISE_OR
  | _BITWISE_AND
  | _BITWISE_XOR
  | _BITWISE_COMPLEMENT
  | _BITWISE_SHIFT_LEFT
  | _BITWISE_SHIFT_RIGHT
  | _BITWISE_ROTATE_LEFT
  | _BITWISE_ROTATE_RIGHT
  -- MEMORY
  | _COMPILE_TIME_CONCATINATE
  | FROM_FRONT
  | _FROM_FRONT_OF_VALUE
  | FROM_BACK
  | _FROM_BACK_OF_VALUE
  | TRUNCATE_FRONT
  | _TRUNCATE_FRONT_OF_VALUE
  | TRUNCATE_BACK
  | _TRUNCATE_BACK_OF_VALUE
  | AT
  | _AT_VALUE
  | ADDRESS
  | _ADDRESS_OF_VALUE
  -- ASSIGNMENT
  | _INITIALIZE
  | _INITIALIZE_RESULT
  | _INITIALIZE_OUTPUT
  | _ASSIGN
  | _ASSIGN_ADD
  | _ASSIGN_SUBTRACT
  | _ASSIGN_MULTIPLY
  | _ASSIGN_DIVIDE
  | _ASSIGN_MODULUS
  -- MOVE SEMANTICS
  | COPY
  | _COPY_VALUE
  | MOVE
  | _MOVE_VALUE
  | SWAP
  -- SUBTYPE
  | _ARRAY
  | _REFERENCE
  | _STOLEN_REFERENCE
  | _POINTER
  | _FAT_POINTER
  -- TYPE MODIFIER
  | MUTABLE
  | CONSTANT
  | VOLATILE
  | ATOMIC
  | NULL_TERMINATED
  -- FIELD RULES
  | _POSITIONAL_FIELDS_END
  | _NAMED_FIELDS_BEGIN
  | _POSITIONAL_FIELDS_END_AND_NAMED_FIELDS_BEGIN
  -- TRIPS
  | _TUPLE_VALUE
  | _TUPLE_TYPE
  | _NULL_VALUE
  | _NULL_TYPE
  | _STRUCTURED_BINDING
  | _IGNORE
  -- STATIC POLYMORPHISM
  | TEMPLATE
  | _SPECIALIZATION
  | _QUOTE
  | EXPAND
  | _EXPAND_VALUE
  | BAKE
  | _BAKE_VALUE
  -- PROCEDURES
  | _CALL
  | _SIGNATURE
  | DESTROY
  | _DESTROY_VALUE
  | DROP
  | _DROP_VALUE
  | ENTRY_POINT
  | FUNCTION
  | METHOD
  | EXTENSION
  | CONSTRUCTOR
  | DESTRUCTOR
  | _ANONYMOUS_FUNCTION
  | _CAPTURE
  -- CONTROL FLOW
  | RETURN
  | BREAK
  | CONTINUE
  | FALLTHROUGH
  | EXIT
  | GOTO
  | LABEL
  -- SYMBOLS
  | OBJECT
  | TABLE
  | ALIAS
  | _LOCAL
  | GLOBAL
  | PROPERTY
  -- VALUES
  | TRUE
  | FALSE
  | VALUE
  | INDEX
  | EXCEPTION
  | _INDETERMINATE
  | NO_DEFAULT_VALUE
  | _INFERENCED_COUNT
  | THIS
  | RESULT
  | ARGUMENT
  | INPUT
  | OUTPUT
  | ADDRESS_SIZE
  | ADDRESS_DEPTH
  | BITS_PER_BYTE
  -- BUILTIN TYPES
  | _INFERENCED_TYPE
  | VOID
  | BOOLEAN
  | WORD
  | SIGNED_INTEGER
  | UNSIGNED_INTEGER
  | BINARY_HALF_FLOAT
  | BINARY_SINGLE_FLOAT
  | BINARY_DOUBLE_FLOAT
  | BINARY_QUAD_FLOAT
  | CHARACTER
  | UTF8
  -- VARIADIC ARGUMENTS
  | VARIADIC_ARGUMENTS
  | FIRST_VARIADIC_ARGUMENT
  | _FIRST_VARIADIC_ARGUMENT_OF_VALUE
  | NEXT_VARIADIC_ARGUMENT
  | _NEXT_VARIADIC_ARGUMENT_OF_VALUE
  -- SCOPES
  | IF
  | ELSE_IF
  | ELSE
  | SWITCH
  | CASE
  | DEFAULT_CASE
  | FOR
  | WHILE
  | DO_WHILE
  | FOR_EACH
  | LOOP
  | SCOPE
  | _VALUE_CONDUIT
  | _JUNCTION_CONDUIT
  | _DESTINATION_CONDUIT
  -- ACCESS MODIFIERS
  | PRIVATE
  | PROTECTED
  | EXPORT
  -- SYMBOL GRAPH
  | IMPORT
  | USE
  -- SOURCES
  | MODULE
  -- ERROR HANDLING AND DEBUGGING
  | ASSERT
  | UNREACHABLE
  -- ATTRIBUTES
  | EXTERNAL
  | NOT_FINAL
  | MAY_DISCARD
  | INLINE
  | MANGLED_NAME
  | _MANGLED_NAME_OF_SYMBOL
  | PACK
  -- REFLECTED VALUES
  | SIZE
  | _SIZE_OF_VALUE
  | _SIZE_OF_TYPE
  | DEPTH
  | _DEPTH_OF_VALUE
  | _DEPTH_OF_TYPE
  | COUNT
  | _COUNT_OF_VALUE
  | _COUNT_OF_TYPE
  | NAME
  | _NAME_OF_VALUE
  | _NAME_OF_SYMBOL
  | LINE
  | _LINE_OF_VALUE
  | _LINE_OF_SYMBOL
  | COLUMN
  | _COLUMN_OF_VALUE
  | _COLUMN_OF_SYMBOL
  | IS
  | ARE_SAME
  -- REFLECTED SYMBOLS
  | TYPE
  | _TYPE_OF_VALUE
  | UNDERLYING
  | _UNDERLYING_OF_TYPE
  | __LAST
  deriving DecidableEq

/-- The numeric value of an opcode, `static_cast<std::uint32_t>(opcode)`: its
position in the enumeration. -/
def Opcode.toNat (opcode : Opcode) : Nat := opcode.toCtorIdx

/-- Modelled from the spec: the constant `requite::OPCODE_COUNT` is declared outside
the sources; the spec makes `isValid` false "for values at/beyond the table's end
marker", so the constant is the position of `__LAST`. -/
def OPCODE_COUNT : Nat := Opcode.__LAST.toNat

/-! ## The classification table -/

open _opcode in
def _getFlags (opcode : Opcode) : _opcode._OpcodeFlags :=
  match opcode with
  | Opcode.__NONE => _INTERNAL_USE_ONLY
  | Opcode.__INTEGER_LITERAL => _INTERNAL_USE_ONLY ||| _MATTE_VALUE
  | Opcode.__REAL_LITERAL => _INTERNAL_USE_ONLY ||| _MATTE_VALUE
  | Opcode.__STRING_LITERAL => _INTERNAL_USE_ONLY ||| _MATTE_VALUE
  | Opcode.__CODEUNIT_LITERAL => _INTERNAL_USE_ONLY ||| _MATTE_VALUE
  | Opcode.__IDENTIFIER_LITERAL =>
      _INTERNAL_USE_ONLY ||| _MATTE_DESTINATION ||| _VALUE_REFLECTIVE_DESTINATION |||
      _SYMBOL_REFLECTIVE_DESTINATION ||| _MATTE_VALUE ||| _VALUE_REFLECTIVE_VALUE |||
      _SYMBOL_REFLECTIVE_VALUE ||| _MATTE_JUNCTION ||| _VALUE_REFLECTIVE_JUNCTION |||
      _SYMBOL_REFLECTIVE_JUNCTION ||| _MATTE_SYMBOL ||| _VALUE_REFLECTIVE_SYMBOL |||
      _SYMBOL_REFLECTIVE_SYMBOL
  | Opcode.__ERROR => _NONE
  | Opcode._CALL_OR_SIGNATURE =>
      _INTERMEDIATE_OPERATION ||| _MATTE_DESTINATION ||| _MATTE_DESTINATION ||| _MATTE_VALUE |||
      _MATTE_LOCAL_STATEMENT ||| _MATTE_SYMBOL ||| _MATTE_LOCAL_STATEMENT
  | Opcode._BIND_VALUE_OR_DEFAULT_VALUE => _INTERMEDIATE_OPERATION
  | Opcode._BIND_SYMBOL_OR_DEFAULT_SYMBOL => _INTERMEDIATE_OPERATION
  | Opcode._TRIP =>
      _INTERMEDIATE_OPERATION ||| _MATTE_DESTINATION ||| _MATTE_VALUE ||| _MATTE_SYMBOL
  | Opcode._CONDUIT =>
      _INTERMEDIATE_OPERATION ||| _MATTE_DESTINATION ||| _MATTE_JUNCTION ||| _MATTE_VALUE
  | Opcode._QUESTION => _INTERMEDIATE_OPERATION ||| _MATTE_VALUE ||| _MATTE_SYMBOL
  | Opcode._LOGICAL_AND => _CONVERGING ||| _INTERMEDIATE_OPERATION ||| _MATTE_VALUE
  | Opcode._LOGICAL_OR => _CONVERGING ||| _INTERMEDIATE_OPERATION ||| _MATTE_VALUE
  | Opcode._LOGICAL_COMPLEMENT => _INTERMEDIATE_OPERATION ||| _MATTE_VALUE
  | Opcode._GREATER => _CONVERGING ||| _INTERMEDIATE_OPERATION ||| _MATTE_VALUE
  | Opcode._GREATER_EQUAL => _CONVERGING ||| _INTERMEDIATE_OPERATION ||| _MATTE_VALUE
  | Opcode._LESS => _CONVERGING ||| _INTERMEDIATE_OPERATION ||| _MATTE_VALUE
  | Opcode._LESS_EQUAL => _CONVERGING ||| _INTERMEDIATE_OPERATION ||| _MATTE_VALUE
  | Opcode._EQUAL => _CONVERGING ||| _INTERMEDIATE_OPERATION ||| _MATTE_VALUE
  | Opcode._NOT_EQUAL => _CONVERGING ||| _INTERMEDIATE_OPERATION ||| _MATTE_VALUE
  | Opcode._REFLECT_VALUE => _CONVERGING ||| _INTERMEDIATE_OPERATION ||| _ANY
  | Opcode._REFLECT_SYMBOL =>
      _CONVERGING ||| _INTERMEDIATE_OPERATION ||| _MATTE_DESTINATION |||
      _VALUE_REFLECTIVE_DESTINATION ||| _SYMBOL_REFLECTIVE_DESTINATION ||| _MATTE_VALUE |||
      _VALUE_REFLECTIVE_VALUE ||| _SYMBOL_REFLECTIVE_VALUE ||| _MATTE_JUNCTION |||
      _VALUE_REFLECTIVE_JUNCTION ||| _SYMBOL_REFLECTIVE_JUNCTION ||| _MATTE_SYMBOL |||
      _VALUE_REFLECTIVE_SYMBOL ||| _SYMBOL_REFLECTIVE_SYMBOL
  | Opcode._MEMBER_VALUE_OF_VALUE_PATH =>
      _INTERMEDIATE_OPERATION ||| _MATTE_DESTINATION ||| _MATTE_VALUE ||| _MATTE_JUNCTION
  | Opcode._MEMBER_SYMBOL_OF_VALUE_PATH => _INTERMEDIATE_OPERATION ||| _MATTE_SYMBOL
  | Opcode._MEMBER_VALUE_OF_SYMBOL_PATH =>
      _INTERMEDIATE_OPERATION ||| _MATTE_DESTINATION ||| _MATTE_VALUE ||| _MATTE_JUNCTION
  | Opcode._MEMBER_SYMBOL_OF_SYMBOL_PATH => _INTERMEDIATE_OPERATION ||| _MATTE_SYMBOL
  | Opcode._EXTENSION_SYMBOL_OF_VALUE => _INTERMEDIATE_OPERATION ||| _MATTE_SYMBOL
  | Opcode._EXTENSION_SYMBOL_OF_SYMBOL => _INTERMEDIATE_OPERATION ||| _MATTE_SYMBOL
  | Opcode._BIND_VALUE => _INTERMEDIATE_OPERATION
  | Opcode._BIND_SYMBOL => _INTERMEDIATE_OPERATION
  | Opcode._DEFAULT_VALUE => _INTERMEDIATE_OPERATION
  | Opcode._DEFAULT_SYMBOL => _INTERMEDIATE_OPERATION
  | Opcode._ASCRIBE_LAST_BRANCH =>
      _INTERMEDIATE_OPERATION ||| _BASE_STATEMENT ||| _TABLE_STATEMENT ||| _OBJECT_STATEMENT |||
      _MATTE_DESTINATION ||| _MATTE_VALUE ||| _MATTE_JUNCTION ||| _MATTE_SYMBOL
  | Opcode._ASCRIBE_FIRST_BRANCH =>
      _INTERMEDIATE_OPERATION ||| _BASE_STATEMENT ||| _TABLE_STATEMENT ||| _OBJECT_STATEMENT |||
      _MATTE_DESTINATION ||| _MATTE_VALUE ||| _MATTE_JUNCTION ||| _MATTE_SYMBOL
  | Opcode._CAST => _INTERMEDIATE_OPERATION ||| _MATTE_VALUE
  | Opcode.STRINGIFY => _MATTE_VALUE
  | Opcode.CODEUNIFY => _MATTE_VALUE
  | Opcode._IDENTIFY =>
      _INTERMEDIATE_OPERATION ||| _MATTE_DESTINATION ||| _VALUE_REFLECTIVE_DESTINATION |||
      _SYMBOL_REFLECTIVE_DESTINATION ||| _MATTE_VALUE ||| _VALUE_REFLECTIVE_VALUE |||
      _SYMBOL_REFLECTIVE_VALUE ||| _MATTE_JUNCTION ||| _VALUE_REFLECTIVE_JUNCTION |||
      _SYMBOL_REFLECTIVE_JUNCTION ||| _MATTE_SYMBOL ||| _VALUE_REFLECTIVE_SYMBOL |||
      _SYMBOL_REFLECTIVE_SYMBOL
  | Opcode._ADD => _CONVERGING ||| _INTERMEDIATE_OPERATION ||| _MATTE_VALUE
  | Opcode._SUBTRACT => _CONVERGING ||| _INTERMEDIATE_OPERATION ||| _MATTE_VALUE
  | Opcode._MULTIPLY => _CONVERGING ||| _INTERMEDIATE_OPERATION ||| _MATTE_VALUE
  | Opcode._DIVIDE => _CONVERGING ||| _INTERMEDIATE_OPERATION ||| _MATTE_VALUE
  | Opcode._MODULUS => _CONVERGING ||| _INTERMEDIATE_OPERATION ||| _MATTE_VALUE
  | Opcode._NEGATE => _INTERMEDIATE_OPERATION ||| _MATTE_VALUE
  | Opcode._BITWISE_CAST => _INTERMEDIATE_OPERATION ||| _MATTE_VALUE
  | Opcode._BITWISE_OR => _CONVERGING ||| _INTERMEDIATE_OPERATION ||| _MATTE_VALUE
  | Opcode._BITWISE_AND => _CONVERGING ||| _INTERMEDIATE_OPERATION ||| _MATTE_VALUE
  | Opcode._BITWISE_XOR => _CONVERGING ||| _INTERMEDIATE_OPERATION ||| _MATTE_VALUE
  | Opcode._BITWISE_COMPLEMENT => _INTERMEDIATE_OPERATION ||| _MATTE_VALUE
  | Opcode._BITWISE_SHIFT_LEFT => _INTERMEDIATE_OPERATION ||| _MATTE_VALUE
  | Opcode._BITWISE_SHIFT_RIGHT => _INTERMEDIATE_OPERATION ||| _MATTE_VALUE
  | Opcode._BITWISE_ROTATE_LEFT => _INTERMEDIATE_OPERATION ||| _MATTE_VALUE
  | Opcode._BITWISE_ROTATE_RIGHT => _INTERMEDIATE_OPERATION ||| _MATTE_VALUE
  | Opcode._COMPILE_TIME_CONCATINATE => _CONVERGING ||| _INTERMEDIATE_OPERATION ||| _MATTE_VALUE
  | Opcode.FROM_FRONT => _VALUE_REFLECTIVE_VALUE
  | Opcode._FROM_FRONT_OF_VALUE => _INTERMEDIATE_OPERATION ||| _MATTE_VALUE
  | Opcode.FROM_BACK => _VALUE_REFLECTIVE_VALUE
  | Opcode._FROM_BACK_OF_VALUE => _INTERMEDIATE_OPERATION ||| _MATTE_VALUE
  | Opcode.TRUNCATE_FRONT => _VALUE_REFLECTIVE_VALUE
  | Opcode._TRUNCATE_FRONT_OF_VALUE => _INTERMEDIATE_OPERATION ||| _MATTE_VALUE
  | Opcode.TRUNCATE_BACK => _VALUE_REFLECTIVE_VALUE
  | Opcode._TRUNCATE_BACK_OF_VALUE => _INTERMEDIATE_OPERATION ||| _MATTE_VALUE
  | Opcode.AT =>
      _VALUE_REFLECTIVE_DESTINATION ||| _VALUE_REFLECTIVE_VALUE ||| _VALUE_REFLECTIVE_JUNCTION
  | Opcode._AT_VALUE =>
      _INTERMEDIATE_OPERATION ||| _MATTE_DESTINATION ||| _MATTE_VALUE ||| _MATTE_JUNCTION
  | Opcode.ADDRESS =>
      _VALUE_REFLECTIVE_DESTINATION ||| _VALUE_REFLECTIVE_VALUE ||| _VALUE_REFLECTIVE_JUNCTION
  | Opcode._ADDRESS_OF_VALUE =>
      _INTERMEDIATE_OPERATION ||| _MATTE_DESTINATION ||| _MATTE_VALUE ||| _MATTE_JUNCTION
  | Opcode._INITIALIZE =>
      _CONVERGING ||| _INTERMEDIATE_OPERATION ||| _MATTE_DESTINATION ||| _MATTE_VALUE |||
      _MATTE_JUNCTION ||| _MATTE_LOCAL_STATEMENT
  | Opcode._INITIALIZE_RESULT =>
      _CONVERGING ||| _INTERMEDIATE_OPERATION ||| _MATTE_DESTINATION ||| _MATTE_VALUE |||
      _MATTE_JUNCTION ||| _MATTE_LOCAL_STATEMENT
  | Opcode._INITIALIZE_OUTPUT =>
      _CONVERGING ||| _INTERMEDIATE_OPERATION ||| _MATTE_DESTINATION ||| _MATTE_VALUE |||
      _MATTE_JUNCTION ||| _MATTE_LOCAL_STATEMENT
  | Opcode._ASSIGN =>
      _CONVERGING ||| _INTERMEDIATE_OPERATION ||| _MATTE_DESTINATION ||| _MATTE_VALUE |||
      _MATTE_JUNCTION ||| _MATTE_LOCAL_STATEMENT
  | Opcode._ASSIGN_ADD =>
      _INTERMEDIATE_OPERATION ||| _MATTE_DESTINATION ||| _MATTE_VALUE ||| _MATTE_JUNCTION |||
      _MATTE_LOCAL_STATEMENT
  | Opcode._ASSIGN_SUBTRACT =>
      _INTERMEDIATE_OPERATION ||| _MATTE_DESTINATION ||| _MATTE_VALUE ||| _MATTE_JUNCTION |||
      _MATTE_LOCAL_STATEMENT
  | Opcode._ASSIGN_MULTIPLY =>
      _INTERMEDIATE_OPERATION ||| _MATTE_DESTINATION ||| _MATTE_VALUE ||| _MATTE_JUNCTION |||
      _MATTE_LOCAL_STATEMENT
  | Opcode._ASSIGN_DIVIDE =>
      _INTERMEDIATE_OPERATION ||| _MATTE_DESTINATION ||| _MATTE_VALUE ||| _MATTE_JUNCTION |||
      _MATTE_LOCAL_STATEMENT
  | Opcode._ASSIGN_MODULUS =>
      _INTERMEDIATE_OPERATION ||| _MATTE_DESTINATION ||| _MATTE_VALUE ||| _MATTE_JUNCTION |||
      _MATTE_LOCAL_STATEMENT
  | Opcode.COPY => _VALUE_REFLECTIVE_VALUE
  | Opcode._COPY_VALUE => _INTERMEDIATE_OPERATION ||| _MATTE_VALUE
  | Opcode.MOVE => _VALUE_REFLECTIVE_VALUE
  | Opcode._MOVE_VALUE => _INTERMEDIATE_OPERATION ||| _MATTE_VALUE
  | Opcode.SWAP => _MATTE_LOCAL_STATEMENT
  | Opcode._ARRAY => _INTERMEDIATE_OPERATION ||| _MATTE_SYMBOL
  | Opcode._REFERENCE => _INTERMEDIATE_OPERATION ||| _MATTE_SYMBOL
  | Opcode._STOLEN_REFERENCE => _INTERMEDIATE_OPERATION ||| _MATTE_SYMBOL
  | Opcode._POINTER => _INTERMEDIATE_OPERATION ||| _MATTE_SYMBOL
  | Opcode._FAT_POINTER => _INTERMEDIATE_OPERATION ||| _MATTE_SYMBOL
  | Opcode.MUTABLE => _MATTE_VALUE
  | Opcode.CONSTANT => _MATTE_VALUE
  | Opcode.VOLATILE => _MATTE_VALUE
  | Opcode.ATOMIC => _MATTE_VALUE
  | Opcode.NULL_TERMINATED => _MATTE_VALUE
  | Opcode._POSITIONAL_FIELDS_END => _INTERMEDIATE_OPERATION
  | Opcode._NAMED_FIELDS_BEGIN => _INTERMEDIATE_OPERATION
  | Opcode._POSITIONAL_FIELDS_END_AND_NAMED_FIELDS_BEGIN => _INTERMEDIATE_OPERATION
  | Opcode._TUPLE_VALUE => _INTERMEDIATE_OPERATION ||| _MATTE_VALUE
  | Opcode._TUPLE_TYPE => _INTERMEDIATE_OPERATION ||| _MATTE_SYMBOL
  | Opcode._NULL_VALUE => _INTERMEDIATE_OPERATION ||| _MATTE_VALUE
  | Opcode._NULL_TYPE => _INTERMEDIATE_OPERATION ||| _MATTE_SYMBOL
  | Opcode._STRUCTURED_BINDING => _INTERMEDIATE_OPERATION ||| _MATTE_LOCAL_STATEMENT
  | Opcode._IGNORE => _INTERMEDIATE_OPERATION ||| _MATTE_LOCAL_STATEMENT
  | Opcode.TEMPLATE => _MATTE_VALUE
  | Opcode._SPECIALIZATION => _INTERMEDIATE_OPERATION ||| _MATTE_VALUE ||| _MATTE_SYMBOL
  | Opcode._QUOTE => _INTERMEDIATE_OPERATION ||| _MATTE_VALUE
  | Opcode.EXPAND =>
      _VALUE_REFLECTIVE_DESTINATION ||| _VALUE_REFLECTIVE_JUNCTION ||| _VALUE_REFLECTIVE_VALUE |||
      _VALUE_REFLECTIVE_LOCAL_STATEMENT ||| _VALUE_REFLECTIVE_SYMBOL
  | Opcode._EXPAND_VALUE => _INTERMEDIATE_OPERATION ||| _ANY
  | Opcode.BAKE => _VALUE_REFLECTIVE_VALUE
  | Opcode._BAKE_VALUE => _INTERMEDIATE_OPERATION ||| _MATTE_VALUE
  | Opcode._CALL =>
      _INTERMEDIATE_OPERATION ||| _MATTE_DESTINATION ||| _MATTE_DESTINATION ||| _MATTE_VALUE |||
      _MATTE_LOCAL_STATEMENT
  | Opcode._SIGNATURE => _INTERMEDIATE_OPERATION ||| _MATTE_SYMBOL
  | Opcode.DESTROY => _VALUE_REFLECTIVE_LOCAL_STATEMENT
  | Opcode._DESTROY_VALUE => _INTERMEDIATE_OPERATION ||| _MATTE_LOCAL_STATEMENT
  | Opcode.DROP => _VALUE_REFLECTIVE_LOCAL_STATEMENT
  | Opcode._DROP_VALUE => _INTERMEDIATE_OPERATION ||| _MATTE_LOCAL_STATEMENT
  | Opcode.ENTRY_POINT => _BASE_STATEMENT
  | Opcode.FUNCTION => _BASE_STATEMENT ||| _TABLE_STATEMENT ||| _OBJECT_STATEMENT
  | Opcode.METHOD => _OBJECT_STATEMENT
  | Opcode.EXTENSION => _BASE_STATEMENT ||| _TABLE_STATEMENT
  | Opcode.CONSTRUCTOR => _OBJECT_STATEMENT
  | Opcode.DESTRUCTOR => _OBJECT_STATEMENT
  | Opcode._ANONYMOUS_FUNCTION => _INTERMEDIATE_OPERATION ||| _MATTE_VALUE
  | Opcode._CAPTURE => _NONE
  | Opcode.RETURN => _MATTE_LOCAL_STATEMENT
  | Opcode.BREAK => _MATTE_LOCAL_STATEMENT
  | Opcode.CONTINUE => _MATTE_LOCAL_STATEMENT
  | Opcode.FALLTHROUGH => _MATTE_LOCAL_STATEMENT
  | Opcode.EXIT => _MATTE_LOCAL_STATEMENT
  | Opcode.GOTO => _MATTE_LOCAL_STATEMENT
  | Opcode.LABEL => _MATTE_VALUE
  | Opcode.OBJECT => _BASE_STATEMENT ||| _TABLE_STATEMENT
  | Opcode.TABLE => _BASE_STATEMENT ||| _TABLE_STATEMENT
  | Opcode.ALIAS =>
      _BASE_STATEMENT ||| _TABLE_STATEMENT ||| _OBJECT_STATEMENT ||| _MATTE_LOCAL_STATEMENT
  | Opcode._LOCAL => _INTERMEDIATE_OPERATION ||| _MATTE_LOCAL_STATEMENT
  | Opcode.GLOBAL => _BASE_STATEMENT ||| _TABLE_STATEMENT ||| _OBJECT_STATEMENT
  | Opcode.PROPERTY => _OBJECT_STATEMENT
  | Opcode.TRUE => _MATTE_VALUE
  | Opcode.FALSE => _MATTE_VALUE
  | Opcode.VALUE => _MATTE_DESTINATION ||| _MATTE_VALUE ||| _MATTE_JUNCTION
  | Opcode.INDEX => _MATTE_VALUE
  | Opcode.EXCEPTION => _MATTE_VALUE
  | Opcode._INDETERMINATE => _INTERMEDIATE_OPERATION ||| _MATTE_VALUE
  | Opcode.NO_DEFAULT_VALUE => _MATTE_VALUE
  | Opcode._INFERENCED_COUNT => _INTERMEDIATE_OPERATION ||| _MATTE_VALUE
  | Opcode.THIS => _MATTE_DESTINATION ||| _MATTE_VALUE ||| _MATTE_JUNCTION
  | Opcode.RESULT => _MATTE_DESTINATION ||| _MATTE_VALUE ||| _MATTE_JUNCTION
  | Opcode.ARGUMENT => _MATTE_DESTINATION ||| _MATTE_VALUE ||| _MATTE_JUNCTION
  | Opcode.INPUT => _MATTE_DESTINATION ||| _MATTE_VALUE ||| _MATTE_JUNCTION
  | Opcode.OUTPUT => _MATTE_DESTINATION ||| _MATTE_VALUE ||| _MATTE_JUNCTION
  | Opcode.ADDRESS_SIZE => _MATTE_VALUE
  | Opcode.ADDRESS_DEPTH => _MATTE_VALUE
  | Opcode.BITS_PER_BYTE => _MATTE_VALUE
  | Opcode._INFERENCED_TYPE => _INTERMEDIATE_OPERATION ||| _MATTE_SYMBOL
  | Opcode.VOID => _MATTE_SYMBOL
  | Opcode.BOOLEAN => _MATTE_SYMBOL
  | Opcode.WORD => _MATTE_SYMBOL
  | Opcode.SIGNED_INTEGER => _MATTE_SYMBOL
  | Opcode.UNSIGNED_INTEGER => _MATTE_SYMBOL
  | Opcode.BINARY_HALF_FLOAT => _MATTE_SYMBOL
  | Opcode.BINARY_SINGLE_FLOAT => _MATTE_SYMBOL
  | Opcode.BINARY_DOUBLE_FLOAT => _MATTE_SYMBOL
  | Opcode.BINARY_QUAD_FLOAT => _MATTE_SYMBOL
  | Opcode.CHARACTER => _MATTE_SYMBOL
  | Opcode.UTF8 => _MATTE_SYMBOL
  | Opcode.VARIADIC_ARGUMENTS => _MATTE_SYMBOL
  | Opcode.FIRST_VARIADIC_ARGUMENT => _VALUE_REFLECTIVE_VALUE
  | Opcode._FIRST_VARIADIC_ARGUMENT_OF_VALUE => _INTERMEDIATE_OPERATION ||| _MATTE_VALUE
  | Opcode.NEXT_VARIADIC_ARGUMENT => _VALUE_REFLECTIVE_VALUE
  | Opcode._NEXT_VARIADIC_ARGUMENT_OF_VALUE => _INTERMEDIATE_OPERATION ||| _MATTE_VALUE
  | Opcode.IF => _MATTE_LOCAL_STATEMENT
  | Opcode.ELSE_IF => _MATTE_LOCAL_STATEMENT
  | Opcode.ELSE => _MATTE_LOCAL_STATEMENT
  | Opcode.SWITCH => _MATTE_LOCAL_STATEMENT
  | Opcode.CASE => _NONE
  | Opcode.DEFAULT_CASE => _NONE
  | Opcode.FOR => _MATTE_LOCAL_STATEMENT
  | Opcode.WHILE => _MATTE_LOCAL_STATEMENT
  | Opcode.DO_WHILE => _MATTE_LOCAL_STATEMENT
  | Opcode.FOR_EACH => _MATTE_LOCAL_STATEMENT
  | Opcode.LOOP => _MATTE_LOCAL_STATEMENT
  | Opcode.SCOPE => _MATTE_LOCAL_STATEMENT
  | Opcode._VALUE_CONDUIT => _INTERMEDIATE_OPERATION ||| _MATTE_VALUE
  | Opcode._JUNCTION_CONDUIT => _INTERMEDIATE_OPERATION ||| _MATTE_JUNCTION
  | Opcode._DESTINATION_CONDUIT => _INTERMEDIATE_OPERATION ||| _MATTE_DESTINATION
  | Opcode.PRIVATE => _MATTE_VALUE
  | Opcode.PROTECTED => _MATTE_VALUE
  | Opcode.EXPORT => _MATTE_VALUE
  | Opcode.IMPORT =>
      _BASE_STATEMENT ||| _TABLE_STATEMENT ||| _OBJECT_STATEMENT ||| _MATTE_LOCAL_STATEMENT
  | Opcode.USE =>
      _BASE_STATEMENT ||| _TABLE_STATEMENT ||| _OBJECT_STATEMENT ||| _MATTE_LOCAL_STATEMENT
  | Opcode.MODULE => _NONE
  | Opcode.ASSERT => _MATTE_LOCAL_STATEMENT
  | Opcode.UNREACHABLE => _MATTE_LOCAL_STATEMENT
  | Opcode.EXTERNAL => _MATTE_VALUE
  | Opcode.NOT_FINAL => _MATTE_VALUE
  | Opcode.MAY_DISCARD => _MATTE_VALUE
  | Opcode.INLINE => _MATTE_VALUE
  | Opcode.MANGLED_NAME => _SYMBOL_REFLECTIVE_VALUE ||| _MATTE_VALUE
  | Opcode._MANGLED_NAME_OF_SYMBOL => _INTERMEDIATE_OPERATION ||| _MATTE_VALUE
  | Opcode.PACK => _MATTE_VALUE
  | Opcode.SIZE => _VALUE_REFLECTIVE_VALUE ||| _SYMBOL_REFLECTIVE_VALUE
  | Opcode._SIZE_OF_VALUE => _INTERMEDIATE_OPERATION ||| _MATTE_VALUE
  | Opcode._SIZE_OF_TYPE => _INTERMEDIATE_OPERATION ||| _MATTE_VALUE
  | Opcode.DEPTH => _VALUE_REFLECTIVE_VALUE ||| _SYMBOL_REFLECTIVE_VALUE
  | Opcode._DEPTH_OF_VALUE => _INTERMEDIATE_OPERATION ||| _MATTE_VALUE
  | Opcode._DEPTH_OF_TYPE => _INTERMEDIATE_OPERATION ||| _MATTE_VALUE
  | Opcode.COUNT => _VALUE_REFLECTIVE_VALUE ||| _SYMBOL_REFLECTIVE_VALUE
  | Opcode._COUNT_OF_VALUE => _INTERMEDIATE_OPERATION ||| _MATTE_VALUE
  | Opcode._COUNT_OF_TYPE => _INTERMEDIATE_OPERATION ||| _MATTE_VALUE
  | Opcode.NAME => _VALUE_REFLECTIVE_VALUE ||| _SYMBOL_REFLECTIVE_VALUE
  | Opcode._NAME_OF_VALUE => _INTERMEDIATE_OPERATION ||| _MATTE_VALUE
  | Opcode._NAME_OF_SYMBOL => _INTERMEDIATE_OPERATION ||| _MATTE_VALUE
  | Opcode.LINE => _MATTE_VALUE ||| _VALUE_REFLECTIVE_VALUE ||| _SYMBOL_REFLECTIVE_VALUE
  | Opcode._LINE_OF_VALUE => _INTERMEDIATE_OPERATION ||| _MATTE_VALUE
  | Opcode._LINE_OF_SYMBOL => _INTERMEDIATE_OPERATION ||| _MATTE_VALUE
  | Opcode.COLUMN => _MATTE_VALUE ||| _VALUE_REFLECTIVE_VALUE ||| _SYMBOL_REFLECTIVE_VALUE
  | Opcode._COLUMN_OF_VALUE => _INTERMEDIATE_OPERATION ||| _MATTE_VALUE
  | Opcode._COLUMN_OF_SYMBOL => _INTERMEDIATE_OPERATION ||| _MATTE_VALUE
  | Opcode.IS => _SYMBOL_REFLECTIVE_VALUE
  | Opcode.ARE_SAME => _MATTE_VALUE
  | Opcode.TYPE => _VALUE_REFLECTIVE_SYMBOL
  | Opcode._TYPE_OF_VALUE => _INTERMEDIATE_OPERATION ||| _MATTE_SYMBOL
  | Opcode.UNDERLYING => _SYMBOL_REFLECTIVE_SYMBOL
  | Opcode._UNDERLYING_OF_TYPE => _INTERMEDIATE_OPERATION ||| _MATTE_SYMBOL
  | Opcode.__LAST => _NONE

def _getHasFlags (opcode : Opcode) (flags : _opcode._OpcodeFlags) : Bool :=
  let opcode_flags := _getFlags opcode
  let has_flags := (opcode_flags &&& flags) == flags
  has_flags

def getName (opcode : Opcode) : String :=
  match opcode with
  | Opcode.__NONE => "__none"
  | Opcode.__INTEGER_LITERAL => "__integer_literal"
  | Opcode.__REAL_LITERAL => "__real_literal"
  | Opcode.__STRING_LITERAL => "__string_literal"
  | Opcode.__CODEUNIT_LITERAL => "__codeunit_literal"
  | Opcode.__IDENTIFIER_LITERAL => "__identifier_literal"
  | Opcode.__ERROR => "__error"
  | Opcode._CALL_OR_SIGNATURE => "_call_or_signature"
  | Opcode._BIND_VALUE_OR_DEFAULT_VALUE => "_bind_value_or_default_value"
  | Opcode._BIND_SYMBOL_OR_DEFAULT_SYMBOL => "_bind_symbol_or_default_symbol"
  | Opcode._TRIP => "_trip"
  | Opcode._CONDUIT => "_conduit"
  | Opcode._QUESTION => "_question"
  | Opcode._LOGICAL_AND => "_logical_and"
  | Opcode._LOGICAL_OR => "_logical_or"
  | Opcode._LOGICAL_COMPLEMENT => "_logical_complement"
  | Opcode._GREATER => "_greater"
  | Opcode._GREATER_EQUAL => "_greater_equal"
  | Opcode._LESS => "_less"
  | Opcode._LESS_EQUAL => "_less_equal"
  | Opcode._EQUAL => "_equal"
  | Opcode._NOT_EQUAL => "_not_equal"
  | Opcode._REFLECT_VALUE => "_reflect_value"
  | Opcode._REFLECT_SYMBOL => "_reflect_symbol"
  | Opcode._MEMBER_VALUE_OF_VALUE_PATH => "_member_value_of_value_path"
  | Opcode._MEMBER_SYMBOL_OF_VALUE_PATH => "_member_symbol_of_value_path"
  | Opcode._MEMBER_VALUE_OF_SYMBOL_PATH => "_member_value_of_symbol_path"
  | Opcode._MEMBER_SYMBOL_OF_SYMBOL_PATH => "_member_symbol_of_symbol_path"
  | Opcode._EXTENSION_SYMBOL_OF_VALUE => "_EXTENSION_symbol_of_value"
  | Opcode._EXTENSION_SYMBOL_OF_SYMBOL => "_EXTENSION_symbol_of_symbol"
  | Opcode._BIND_VALUE => "_bind_value"
  | Opcode._BIND_SYMBOL => "_bind_symbol"
  | Opcode._DEFAULT_VALUE => "default_value"
  | Opcode._DEFAULT_SYMBOL => "_default_symbol"
  | Opcode._ASCRIBE_LAST_BRANCH => "_ascribe_last_branch"
  | Opcode._ASCRIBE_FIRST_BRANCH => "_ascribe_first_branch"
  | Opcode._CAST => "_cast"
  | Opcode.STRINGIFY => "stringify"
  | Opcode.CODEUNIFY => "codeunify"
  | Opcode._IDENTIFY => "_identify"
  | Opcode._ADD => "_add"
  | Opcode._SUBTRACT => "_subtract"
  | Opcode._MULTIPLY => "_multiply"
  | Opcode._DIVIDE => "_divide"
  | Opcode._MODULUS => "_modulus"
  | Opcode._NEGATE => "_negate"
  | Opcode._BITWISE_CAST => "_bitwise_cast"
  | Opcode._BITWISE_OR => "_bitwise_or"
  | Opcode._BITWISE_AND => "_bitwise_and"
  | Opcode._BITWISE_XOR => "_bitwise_xor"
  | Opcode._BITWISE_COMPLEMENT => "_bitwise_complement"
  | Opcode._BITWISE_SHIFT_LEFT => "_bitwise_shift_left"
  | Opcode._BITWISE_SHIFT_RIGHT => "_bitwise_shift_right"
  | Opcode._BITWISE_ROTATE_LEFT => "_bitwise_rotate_left"
  | Opcode._BITWISE_ROTATE_RIGHT => "_bitwise_rotate_right"
  | Opcode._COMPILE_TIME_CONCATINATE => "_compile_time_concatinate"
  | Opcode.FROM_FRONT => "from_front"
  | Opcode._FROM_FRONT_OF_VALUE => "_from_front_of_value"
  | Opcode.FROM_BACK => "from_back"
  | Opcode._FROM_BACK_OF_VALUE => "_from_back_of_value"
  | Opcode.TRUNCATE_FRONT => "truncate_front"
  | Opcode._TRUNCATE_FRONT_OF_VALUE => "_truncate_front_of_value"
  | Opcode.TRUNCATE_BACK => "truncate_back"
  | Opcode._TRUNCATE_BACK_OF_VALUE => "_truncate_back_of_value"
  | Opcode.AT => "at"
  | Opcode._AT_VALUE => "_at_value"
  | Opcode.ADDRESS => "address"
  | Opcode._ADDRESS_OF_VALUE => "_address_of_value"
  | Opcode._INITIALIZE => "_initialize"
  | Opcode._INITIALIZE_RESULT => "_initialize_result"
  | Opcode._INITIALIZE_OUTPUT => "_initialize_output"
  | Opcode._ASSIGN => "_assign"
  | Opcode._ASSIGN_ADD => "_assign_add"
  | Opcode._ASSIGN_SUBTRACT => "assign_subtract"
  | Opcode._ASSIGN_MULTIPLY => "_assign_multiply"
  | Opcode._ASSIGN_DIVIDE => "_assign_divide"
  | Opcode._ASSIGN_MODULUS => "_assign_modulus"
  | Opcode.COPY => "copy"
  | Opcode._COPY_VALUE => "_copy_value"
  | Opcode.MOVE => "move"
  | Opcode._MOVE_VALUE => "_move_value"
  | Opcode.SWAP => "swap"
  | Opcode._ARRAY => "_array"
  | Opcode._REFERENCE => "_reference"
  | Opcode._STOLEN_REFERENCE => "_stolen_reference"
  | Opcode._POINTER => "_pointer"
  | Opcode._FAT_POINTER => "_fat_pointer"
  | Opcode.MUTABLE => "mutable"
  | Opcode.CONSTANT => "constant"
  | Opcode.VOLATILE => "volatile"
  | Opcode.ATOMIC => "atomic"
  | Opcode.NULL_TERMINATED => "null_terminated"
  | Opcode._POSITIONAL_FIELDS_END => "_positional_fields_end"
  | Opcode._NAMED_FIELDS_BEGIN => "_named_fields_begin"
  | Opcode._POSITIONAL_FIELDS_END_AND_NAMED_FIELDS_BEGIN => "_positional_fields_end_and_named_fields_begin"
  | Opcode._TUPLE_VALUE => "_tuple_value"
  | Opcode._TUPLE_TYPE => "_tuple_type"
  | Opcode._NULL_VALUE => "_null_value"
  | Opcode._NULL_TYPE => "_null_type"
  | Opcode._STRUCTURED_BINDING => "_structured_binding"
  | Opcode._IGNORE => "_ignore"
  | Opcode.TEMPLATE => "template"
  | Opcode._SPECIALIZATION => "_specialization"
  | Opcode._QUOTE => "_quote"
  | Opcode.EXPAND => "expand"
  | Opcode._EXPAND_VALUE => "_expand_value"
  | Opcode.BAKE => "bake"
  | Opcode._BAKE_VALUE => "_bake_value"
  | Opcode._CALL => "_call"
  | Opcode._SIGNATURE => "_signature"
  | Opcode.DESTROY => "destroy"
  | Opcode._DESTROY_VALUE => "_destroy_value"
  | Opcode.DROP => "drop"
  | Opcode._DROP_VALUE => "_drop_value"
  | Opcode.ENTRY_POINT => "entry_point"
  | Opcode.FUNCTION => "function"
  | Opcode.METHOD => "method"
  | Opcode.EXTENSION => "EXTENSION"
  | Opcode.CONSTRUCTOR => "constructor"
  | Opcode.DESTRUCTOR => "destructor"
  | Opcode._ANONYMOUS_FUNCTION => "_anonymous_function"
  | Opcode._CAPTURE => "_capture"
  | Opcode.RETURN => "return"
  | Opcode.BREAK => "break"
  | Opcode.CONTINUE => "continue"
  | Opcode.FALLTHROUGH => "fallthrough"
  | Opcode.EXIT => "exit"
  | Opcode.GOTO => "goto"
  | Opcode.LABEL => "label"
  | Opcode.OBJECT => "object"
  | Opcode.TABLE => "table"
  | Opcode.ALIAS => "alias"
  | Opcode._LOCAL => "_local"
  | Opcode.GLOBAL => "global"
  | Opcode.PROPERTY => "property"
  | Opcode.TRUE => "true"
  | Opcode.FALSE => "false"
  | Opcode.VALUE => "value"
  | Opcode.INDEX => "index"
  | Opcode.EXCEPTION => "exception"
  | Opcode._INDETERMINATE => "_indeterminate"
  | Opcode.NO_DEFAULT_VALUE => "no_default_value"
  | Opcode._INFERENCED_COUNT => "_inferenced_count"
  | Opcode.THIS => "this"
  | Opcode.RESULT => "result"
  | Opcode.ARGUMENT => "argument"
  | Opcode.INPUT => "input"
  | Opcode.OUTPUT => "output"
  | Opcode.ADDRESS_SIZE => "address_size"
  | Opcode.ADDRESS_DEPTH => "address_depth"
  | Opcode.BITS_PER_BYTE => "bits_per_byte"
  | Opcode._INFERENCED_TYPE => "_inferenced_type"
  | Opcode.VOID => "void"
  | Opcode.BOOLEAN => "boolean"
  | Opcode.WORD => "word"
  | Opcode.SIGNED_INTEGER => "signed_integer"
  | Opcode.UNSIGNED_INTEGER => "unsigned_integer"
  | Opcode.BINARY_HALF_FLOAT => "binary_half_float"
  | Opcode.BINARY_SINGLE_FLOAT => "binary_single_float"
  | Opcode.BINARY_DOUBLE_FLOAT => "binary_double_float"
  | Opcode.BINARY_QUAD_FLOAT => "binary_quad_float"
  | Opcode.CHARACTER => "character"
  | Opcode.UTF8 => "utf8"
  | Opcode.VARIADIC_ARGUMENTS => "variadic_arguments"
  | Opcode.FIRST_VARIADIC_ARGUMENT => "first_variadic_argument"
  | Opcode._FIRST_VARIADIC_ARGUMENT_OF_VALUE => "_first_variadic_argument_of_value"
  | Opcode.NEXT_VARIADIC_ARGUMENT => "next_variadic_argument"
  | Opcode._NEXT_VARIADIC_ARGUMENT_OF_VALUE => "_next_variadic_argument_of_value"
  | Opcode.IF => "if"
  | Opcode.ELSE_IF => "else_if"
  | Opcode.ELSE => "else"
  | Opcode.SWITCH => "switch"
  | Opcode.CASE => "case"
  | Opcode.DEFAULT_CASE => "default_case"
  | Opcode.FOR => "for"
  | Opcode.WHILE => "while"
  | Opcode.DO_WHILE => "do_while"
  | Opcode.FOR_EACH => "for_each"
  | Opcode.LOOP => "loop"
  | Opcode.SCOPE => "scope"
  | Opcode._VALUE_CONDUIT => "_value_conduit"
  | Opcode._JUNCTION_CONDUIT => "_junction_conduit"
  | Opcode._DESTINATION_CONDUIT => "_destination_conduit"
  | Opcode.PRIVATE => "private"
  | Opcode.PROTECTED => "protected"
  | Opcode.EXPORT => "export"
  | Opcode.IMPORT => "import"
  | Opcode.USE => "use"
  | Opcode.MODULE => "module"
  | Opcode.ASSERT => "assert"
  | Opcode.UNREACHABLE => "unreachable"
  | Opcode.EXTERNAL => "external"
  | Opcode.NOT_FINAL => "not_final"
  | Opcode.MAY_DISCARD => "may_discard"
  | Opcode.INLINE => "inline"
  | Opcode.MANGLED_NAME => "mangled_name"
  | Opcode._MANGLED_NAME_OF_SYMBOL => "_mangled_name_of_symbol"
  | Opcode.PACK => "pack"
  | Opcode.SIZE => "size"
  | Opcode._SIZE_OF_VALUE => "_size_of_value"
  | Opcode._SIZE_OF_TYPE => "_size_of_type"
  | Opcode.DEPTH => "depth"
  | Opcode._DEPTH_OF_VALUE => "_depth_of_value"
  | Opcode._DEPTH_OF_TYPE => "_depth_of_type"
  | Opcode.COUNT => "count"
  | Opcode._COUNT_OF_VALUE => "_count_of_value"
  | Opcode._COUNT_OF_TYPE => "_count_of_type"
  | Opcode.NAME => "name"
  | Opcode._NAME_OF_VALUE => "_name_of_value"
  | Opcode._NAME_OF_SYMBOL => "_name_of_symbol"
  | Opcode.LINE => "line"
  | Opcode._LINE_OF_VALUE => "_line_of_value"
  | Opcode._LINE_OF_SYMBOL => "_line_of_symbol"
  | Opcode.COLUMN => "column"
  | Opcode._COLUMN_OF_VALUE => "_column_of_value"
  | Opcode._COLUMN_OF_SYMBOL => "_column_of_symbol"
  | Opcode.IS => "is"
  | Opcode.ARE_SAME => "are_same"
  | Opcode.TYPE => "type"
  | Opcode._TYPE_OF_VALUE => "_type_of_value"
  | Opcode.UNDERLYING => "underlying"
  | Opcode._UNDERLYING_OF_TYPE => "_underlying_of_type"
  | Opcode.__LAST => "__error"

def getUniversalizedValue (opcode : Opcode) : Opcode :=
  match opcode with
  | Opcode.FROM_FRONT => Opcode._FROM_FRONT_OF_VALUE
  | Opcode.FROM_BACK => Opcode._FROM_BACK_OF_VALUE
  | Opcode.TRUNCATE_FRONT => Opcode._TRUNCATE_FRONT_OF_VALUE
  | Opcode.TRUNCATE_BACK => Opcode._TRUNCATE_BACK_OF_VALUE
  | Opcode.AT => Opcode._AT_VALUE
  | Opcode.ADDRESS => Opcode._ADDRESS_OF_VALUE
  | Opcode.COPY => Opcode._COPY_VALUE
  | Opcode.MOVE => Opcode._MOVE_VALUE
  | Opcode.DESTROY => Opcode._DESTROY_VALUE
  | Opcode.DROP => Opcode._DROP_VALUE
  | Opcode.EXPAND => Opcode._EXPAND_VALUE
  | Opcode.BAKE => Opcode._BAKE_VALUE
  | Opcode.FIRST_VARIADIC_ARGUMENT => Opcode._FIRST_VARIADIC_ARGUMENT_OF_VALUE
  | Opcode.NEXT_VARIADIC_ARGUMENT => Opcode._NEXT_VARIADIC_ARGUMENT_OF_VALUE
  | Opcode.SIZE => Opcode._SIZE_OF_VALUE
  | Opcode.DEPTH => Opcode._DEPTH_OF_VALUE
  | Opcode.COUNT => Opcode._COUNT_OF_VALUE
  | Opcode.NAME => Opcode._NAME_OF_VALUE
  | Opcode.LINE => Opcode._LINE_OF_VALUE
  | Opcode.COLUMN => Opcode._COLUMN_OF_VALUE
  | Opcode.TYPE => Opcode._TYPE_OF_VALUE
  | _ => Opcode.__ERROR

def getUniversalizedSymbol (opcode : Opcode) : Opcode :=
  match opcode with
  | Opcode.EXPAND => Opcode._EXPAND_VALUE
  | Opcode.MANGLED_NAME => Opcode._MANGLED_NAME_OF_SYMBOL
  | Opcode.SIZE => Opcode._SIZE_OF_TYPE
  | Opcode.DEPTH => Opcode._DEPTH_OF_TYPE
  | Opcode.COUNT => Opcode._COUNT_OF_TYPE
  | Opcode.NAME => Opcode._NAME_OF_SYMBOL
  | Opcode.COLUMN => Opcode._COLUMN_OF_SYMBOL
  | Opcode.IS => Opcode.ARE_SAME
  | Opcode.UNDERLYING => Opcode._UNDERLYING_OF_TYPE
  | _ => Opcode.__NONE

def getIsValid (opcode : Opcode) : Bool :=
  opcode != Opcode.__NONE && opcode != Opcode.__ERROR && opcode.toNat < OPCODE_COUNT

def getIsInternalUseOnly (opcode : Opcode) : Bool :=
  let has_flags := _getHasFlags opcode _opcode._INTERNAL_USE_ONLY
  has_flags

def getIsIntermediateOperation (opcode : Opcode) : Bool :=
  let has_flags := _getHasFlags opcode _opcode._INTERMEDIATE_OPERATION
  has_flags

def getIsConverging (opcode : Opcode) : Bool :=
  let has_flags := _getHasFlags opcode _opcode._CONVERGING
  has_flags

def getHasTextData (opcode : Opcode) : Bool :=
  opcode == Opcode.__STRING_LITERAL || opcode == Opcode.__CODEUNIT_LITERAL ||
    opcode == Opcode.__IDENTIFIER_LITERAL

def getHasIntegerData (opcode : Opcode) : Bool :=
  opcode == Opcode.__INTEGER_LITERAL

def getHasScopeData (opcode : Opcode) : Bool :=
  opcode == Opcode.IF || opcode == Opcode.ELSE_IF ||
    opcode == Opcode.ELSE || opcode == Opcode.SWITCH ||
    opcode == Opcode.CASE ||
    opcode == Opcode.DEFAULT_CASE ||
    opcode == Opcode.FOR || opcode == Opcode.WHILE ||
    opcode == Opcode.DO_WHILE ||
    opcode == Opcode.FOR_EACH ||
    opcode == Opcode.LOOP || opcode == Opcode.SCOPE ||
    opcode == Opcode.TABLE

def getHasObjectData (opcode : Opcode) : Bool :=
  opcode == Opcode.OBJECT

def getHasOverloadData (opcode : Opcode) : Bool :=
  opcode == Opcode.ENTRY_POINT ||
    opcode == Opcode.FUNCTION ||
    opcode == Opcode.METHOD ||
    opcode == Opcode.EXTENSION ||
    opcode == Opcode.CONSTRUCTOR ||
    opcode == Opcode.DESTRUCTOR

def getHasLabelData (opcode : Opcode) : Bool :=
  opcode == Opcode.LABEL

def getHasAliasData (opcode : Opcode) : Bool :=
  opcode == Opcode.ALIAS

def getHasOrderedVariableData (opcode : Opcode) : Bool :=
  opcode == Opcode._LOCAL

def getHasUnorderedVariableData (opcode : Opcode) : Bool :=
  opcode == Opcode.PROPERTY ||
    opcode == Opcode.GLOBAL

def getHasAnonymousFunctionData (opcode : Opcode) : Bool :=
  opcode == Opcode._ANONYMOUS_FUNCTION

/-! ## Variable kinds (`include/requite/detail/variable_type.hpp`) -/

/-- Modelled from the spec: the declaration of `enum class VariableType`
(`requite/variable_type.hpp`) is not among the sources. Its enumerators are the
case labels of the exhaustive switch in `getName(VariableType)`, in that order. -/
inductive VariableType where
  | NONE
  | LOCAL
  | GLOBAL
  | PROPERTY
  deriving DecidableEq

def getVariableType (opcode : Opcode) : VariableType :=
  match opcode with
  | Opcode._LOCAL => VariableType.LOCAL
  | Opcode.GLOBAL => VariableType.GLOBAL
  | Opcode.PROPERTY => VariableType.PROPERTY
  | _ => VariableType.NONE

def getOpcode (type : VariableType) : Opcode :=
  match type with
  | VariableType.LOCAL => Opcode._LOCAL
  | VariableType.GLOBAL => Opcode.GLOBAL
  | VariableType.PROPERTY => Opcode.PROPERTY
  | _ => Opcode.__ERROR

/-! ## Contract violations -/

/-- How a call on an object with state `σ` ended: it returned, or a `REQUITE_ASSERT`
failed. Either way the state the object had at that moment is recorded. -/
inductive Outcome (σ : Type) where
  | returned (state : σ)
  | contractViolation (state : σ)

/-- Whether the call returned normally. -/
def Outcome.succeeded {σ : Type} : Outcome σ → Bool
  | .returned _ => true
  | .contractViolation _ => false

/-- The state of the object when the call returned or was aborted. -/
def Outcome.state {σ : Type} : Outcome σ → σ
  | .returned s => s
  | .contractViolation s => s

/-- Modelled from the spec: the macro `REQUITE_ASSERT` (`requite/assert.hpp`) is not
among the sources; the spec treats a failed assertion as a fatal contract violation.
`REQUITE_ASSERT cond self rest` continues with `rest` when `cond` holds and otherwise
stops the call with the object still in state `self`. -/
def REQUITE_ASSERT {σ : Type} (cond : Bool) (self : σ) (rest : Outcome σ) : Outcome σ :=
  if cond then rest else Outcome.contractViolation self

/-! ## Expression: the opcode state machine -/

/-- Modelled from the spec: the payload an expression may carry (declared in
`requite/expression.hpp`, not among the sources). Text and integer payloads carry
their value; the remaining kinds refer to an entity owned elsewhere, kept as a
handle. -/
inductive ExpressionData where
  | text (value : String)
  | integer (value : Nat)
  | scope (handle : Nat)
  | object (handle : Nat)
  | overload (handle : Nat)
  | label (handle : Nat)
  | alias (handle : Nat)
  | orderedVariable (handle : Nat)
  | unorderedVariable (handle : Nat)
  | anonymousFunction (handle : Nat)

/-- Modelled from the spec: the class `Expression` is declared in
`requite/expression.hpp`, not among the sources. It holds the opcode field
`_opcode`, the ordered child sequence (branches) and the optional payload. -/
inductive Expression where
  | mk (_opcode : Opcode) (branches : List Expression) (data : Option ExpressionData)

namespace Expression

def _opcode : Expression → Opcode
  | mk opcode _ _ => opcode

def branches : Expression → List Expression
  | mk _ branches _ => branches

def data : Expression → Option ExpressionData
  | mk _ _ data => data

/-- The assignment `this->_opcode = opcode`. -/
def withOpcode : Expression → Opcode → Expression
  | mk _ branches data, opcode => mk opcode branches data

/-- Modelled from the spec: a freshly constructed expression is in the Unset state
(its opcode is the none sentinel) and has neither branches nor payload. -/
def fresh : Expression := mk Opcode.__NONE [] none

def getOpcode (self : Expression) : Opcode := self._opcode

def getIsNone (self : Expression) : Bool :=
  self.getOpcode == Opcode.__NONE

def getIsOperation (self : Expression) : Bool :=
  decide (self.getOpcode.toNat > Opcode.__IDENTIFIER_LITERAL.toNat)

def getIsInteger (self : Expression) : Bool :=
  self.getOpcode == Opcode.__INTEGER_LITERAL

def getIsReal (self : Expression) : Bool :=
  self.getOpcode == Opcode.__REAL_LITERAL

def getIsNumeric (self : Expression) : Bool :=
  self.getIsInteger || self.getIsReal

def getIsString (self : Expression) : Bool :=
  self.getOpcode == Opcode.__STRING_LITERAL

def getIsCodeunit (self : Expression) : Bool :=
  self.getOpcode == Opcode.__CODEUNIT_LITERAL

def getIsIdentifier (self : Expression) : Bool :=
  self.getOpcode == Opcode.__IDENTIFIER_LITERAL

def getIsConverging (self : Expression) : Bool :=
  requite.getIsConverging self.getOpcode

def getIsInternalUseOnly (self : Expression) : Bool :=
  requite.getIsInternalUseOnly self.getOpcode

def setOpcode (self : Expression) (opcode : Opcode) : Outcome Expression :=
  REQUITE_ASSERT (self._opcode == Opcode.__NONE) self <|
  Outcome.returned (self.withOpcode opcode)

def changeOpcode (self : Expression) (opcode : Opcode) : Outcome Expression :=
  REQUITE_ASSERT (self._opcode != Opcode.__NONE) self <|
  REQUITE_ASSERT (self.getIsOperation ||
      (getHasTextData opcode && getHasTextData self._opcode)) self <|
  Outcome.returned (self.withOpcode opcode)

end Expression

/-! ## Attributes (`src/attributes.cpp`) -/

/-- Modelled from the spec: `enum class AttributeType` (`requite/attribute_type.hpp`)
is not among the sources. An attribute kind is represented by the numeric value of
its enumerator, `static_cast<std::size_t>(type)`, which is its index in the bit
vector of an attribute set. -/
abbrev AttributeType := Nat

/-- Modelled from the spec: what `attributes.cpp` uses of the absent
`requite/attribute_type.hpp`, taken as parameters: the enumerators `NONE` and `LABEL`,
the classification `getAttributeType` of an opcode into an attribute kind, and the
display name `getName` of a kind. -/
structure AttributeTypes where
  NONE : AttributeType
  LABEL : AttributeType
  getAttributeType : Opcode → AttributeType
  getName : AttributeType → String

/-- Modelled from the spec: `enum class LogType` is not among the sources; `ERROR`
is the one severity the code here names. -/
inductive LogType where
  | ERROR
  deriving DecidableEq

/-- Modelled from the spec: a message recorded by the diagnostic sink, located at an
expression and tagged with a severity. -/
structure SourceMessage where
  expression : Expression
  type : LogType
  text : String

/-- Modelled from the spec: the diagnostic sink `Context` (`requite/context.hpp`) is
not among the sources; it is the ordered list of the messages recorded so far. -/
structure Context where
  messages : List SourceMessage

/-- Modelled from the spec: `Context::logSourceMessage` records one source-located,
severity-tagged message. -/
def Context.logSourceMessage (self : Context) (expression : Expression) (type : LogType)
    (text : String) : Context :=
  { messages := self.messages ++ [{ expression := expression, type := type, text := text }] }

/-- Modelled from the spec: `requite::setSingleRef` (`requite/utility.hpp`) is not
among the sources; a back-reference is write-once, so setting one that is already
set is a contract violation. `store` writes the pointer field of the object. -/
def setSingleRef {α σ : Type} (ptr : Option α) (ref : α) (self : σ)
    (store : Option α → σ) : Outcome σ :=
  REQUITE_ASSERT ptr.isNone self <|
  Outcome.returned (store (some ref))

/-- The state a call ended in, seen through `f` (used when a member of a larger
object is updated by a call on that member). -/
def Outcome.map {σ τ : Type} (f : σ → τ) : Outcome σ → Outcome τ
  | .returned s => .returned (f s)
  | .contractViolation s => .contractViolation (f s)

/-- Sequencing of two calls: the second runs only when the first returned. -/
def Outcome.andThen {σ : Type} (first : Outcome σ) (next : σ → Outcome σ) : Outcome σ :=
  match first with
  | .returned s => next s
  | .contractViolation s => .contractViolation s

/-- Modelled from the spec: the class `Attributes` is declared in
`requite/attributes.hpp`, not among the sources. `_flags` is the `std::bitset` of
attribute kinds, kept as the natural number whose binary digit `i` is bit `i`
(the width of the bit vector is taken to cover every kind); `_expression_ptr` is the
back-reference to the ascribe expression. -/
structure Attributes where
  _flags : Nat := 0
  _expression_ptr : Option Expression := none

namespace Attributes

def clear (self : Attributes) : Attributes :=
  { self with _flags := 0 }

def getHasAnyAttribute (self : Attributes) : Bool :=
  self._flags != 0

def getHasAttribute (self : Attributes) (type : AttributeType) : Bool :=
  Nat.testBit self._flags type

def addAttribute (self : Attributes) (type : AttributeType) : Outcome Attributes :=
  REQUITE_ASSERT (!self.getHasAttribute type) self <|
  Outcome.returned { self with _flags := self._flags ||| (1 <<< type) }

def removeAttribute (self : Attributes) (type : AttributeType) : Outcome Attributes :=
  REQUITE_ASSERT (self.getHasAttribute type) self <|
  Outcome.returned { self with _flags := self._flags ^^^ (self._flags &&& (1 <<< type)) }

def getHasExpression (self : Attributes) : Bool :=
  self._expression_ptr.isSome

def setExpression (self : Attributes) (expression : Expression) : Outcome Attributes :=
  setSingleRef self._expression_ptr expression self
    (fun ptr => { self with _expression_ptr := ptr })

end Attributes

/-- Modelled from the spec: `MakeAttributesResult` is declared in
`requite/attributes.hpp`, not among the sources: the attribute set, the failed mark
and the trailing branch. -/
structure MakeAttributesResult where
  attributes : Attributes := {}
  has_error : Bool := false
  last_expression_ptr : Option Expression := none

/-- Modelled from the spec: the branch walker `walkBranch().doUntilLast(f).doLast(g)`
is not among the sources; `f` is run on every branch except the last, in order, then
`g` on the last branch. A contract violation inside a callback ends the walk. -/
def walkBranchDoUntilLastDoLast {σ : Type} (f g : σ → Expression → Outcome σ) :
    List Expression → σ → Outcome σ
  | [], s => Outcome.returned s
  | [last], s => g s last
  | branch :: next :: rest, s =>
    (f s branch).andThen (walkBranchDoUntilLastDoLast f g (next :: rest))

namespace Attributes

/-- The callback `makeAttributes` passes to `doUntilLast`; the captured `context` and
`result` are its state. -/
def makeAttributes.doUntilLast (T : AttributeTypes) (state : Context × MakeAttributesResult)
    (branch : Expression) : Outcome (Context × MakeAttributesResult) :=
  let context := state.1
  let result := state.2
  let type := T.getAttributeType branch.getOpcode
  REQUITE_ASSERT (type != T.NONE) state <|
  if type != T.LABEL then
    if result.attributes.getHasAttribute type then
      Outcome.returned
        (context.logSourceMessage branch LogType.ERROR
            ("duplicate attribute of type \"" ++ T.getName type ++ "\""),
          { result with has_error := true })
    else
      (result.attributes.addAttribute type).map
        (fun attributes => (context, { result with attributes := attributes }))
  else
    (result.attributes.addAttribute type).map
      (fun attributes => (context, { result with attributes := attributes }))

/-- The callback `makeAttributes` passes to `doLast`. -/
def makeAttributes.doLast (state : Context × MakeAttributesResult)
    (branch : Expression) : Outcome (Context × MakeAttributesResult) :=
  Outcome.returned (state.1, { state.2 with last_expression_ptr := some branch })

def makeAttributes (T : AttributeTypes) (context : Context)
    (ascribe_expression : Expression) : Outcome (Context × MakeAttributesResult) :=
  let result : MakeAttributesResult := {}
  ((result.attributes.setExpression ascribe_expression).map
      (fun attributes => (context, { result with attributes := attributes }))).andThen
    (walkBranchDoUntilLastDoLast (makeAttributes.doUntilLast T) makeAttributes.doLast
      ascribe_expression.branches)

end Attributes

/-- A sample instance of the absent attribute-kind declarations, used to run
`makeAttributes` on concrete expressions: `NONE` is 0, `EXPORT` classifies to kind 1,
`LABEL` to kind 2 and `INLINE` to kind 3. -/
def sampleAttributeTypes : AttributeTypes where
  NONE := 0
  LABEL := 2
  getAttributeType := fun opcode =>
    match opcode with
    | Opcode.EXPORT => 1
    | Opcode.LABEL => 2
    | Opcode.INLINE => 3
    | _ => 0
  getName := fun type =>
    match type with
    | 1 => "export"
    | 2 => "label"
    | 3 => "inline"
    | _ => "none"

/-- The kind of a branch: the attribute kind its opcode classifies to. -/
def branchKind (T : AttributeTypes) (branch : Expression) : AttributeType :=
  T.getAttributeType branch.getOpcode

/-- The branches, out of a list walked in order, whose kind already occurred on an
earlier branch; `earlier` lists the kinds of the branches walked before. -/
def repeatedBranches (T : AttributeTypes) (earlier : List AttributeType) :
    List Expression → List Expression
  | [] => []
  | branch :: rest =>
    if branchKind T branch ∈ earlier then
      branch :: repeatedBranches T (branchKind T branch :: earlier) rest
    else
      repeatedBranches T (branchKind T branch :: earlier) rest

/-- The diagnostic `makeAttributes` records for a branch with a duplicate kind. -/
def duplicateAttributeMessage (T : AttributeTypes) (branch : Expression) : SourceMessage :=
  { expression := branch, type := LogType.ERROR,
    text := "duplicate attribute of type \"" ++ T.getName (branchKind T branch) ++ "\"" }

/-- A sample ascribe expression: branches `EXPORT`, `EXPORT` and a
trailing function declaration. -/
def ascribeExportTwice : Expression :=
  Expression.mk Opcode._ASCRIBE_LAST_BRANCH
    [Expression.mk Opcode.EXPORT [] none, Expression.mk Opcode.EXPORT [] none,
      Expression.mk Opcode.FUNCTION [] none] none

/-- The five classification bands of an opcode, in the order none, error, literal,
internal, surface. -/
def classificationBands (op : Opcode) : List Bool :=
  [op == Opcode.__NONE,
   op == Opcode.__ERROR,
   op == Opcode.__INTEGER_LITERAL || op == Opcode.__REAL_LITERAL ||
     op == Opcode.__STRING_LITERAL || op == Opcode.__CODEUNIT_LITERAL ||
     op == Opcode.__IDENTIFIER_LITERAL,
   getIsIntermediateOperation op,
   getIsValid op && !getIsInternalUseOnly op && !getIsIntermediateOperation op]

/-- The three classification flags that are not role flags. -/
def classificationFlags : List _opcode._OpcodeFlags :=
  [_opcode._CONVERGING, _opcode._INTERNAL_USE_ONLY, _opcode._INTERMEDIATE_OPERATION]

/-- The eighteen role flags, in the order of their declaration. -/
def roleFlags : List _opcode._OpcodeFlags :=
  [_opcode._BASE_STATEMENT, _opcode._TABLE_STATEMENT, _opcode._MATTE_LOCAL_STATEMENT,
   _opcode._VALUE_REFLECTIVE_LOCAL_STATEMENT, _opcode._SYMBOL_REFLECTIVE_LOCAL_STATEMENT,
   _opcode._OBJECT_STATEMENT, _opcode._MATTE_DESTINATION,
   _opcode._VALUE_REFLECTIVE_DESTINATION, _opcode._SYMBOL_REFLECTIVE_DESTINATION,
   _opcode._MATTE_VALUE, _opcode._VALUE_REFLECTIVE_VALUE, _opcode._SYMBOL_REFLECTIVE_VALUE,
   _opcode._MATTE_JUNCTION, _opcode._VALUE_REFLECTIVE_JUNCTION,
   _opcode._SYMBOL_REFLECTIVE_JUNCTION, _opcode._MATTE_SYMBOL,
   _opcode._VALUE_REFLECTIVE_SYMBOL, _opcode._SYMBOL_REFLECTIVE_SYMBOL]

/-- The twenty-one named single flags: the classification flags and the role flags. -/
def namedFlags : List _opcode._OpcodeFlags :=
  classificationFlags ++ roleFlags

/-! ## Alias (`src/alias.cpp`) -/

/-- Modelled from the spec: the class `Module` is not among the sources; an alias
refers to a module by a non-owning reference, kept as a handle. -/
structure Module where
  handle : Nat
  deriving DecidableEq

/-- Modelled from the spec: the class `Object` is not among the sources; an alias
refers to an object by a non-owning reference, kept as a handle. -/
structure Object where
  handle : Nat
  deriving DecidableEq

/-- Modelled from the spec: the class `Scope` is not among the sources; the containing
scope is a non-owning reference, kept as a handle. -/
structure Scope where
  handle : Nat
  deriving DecidableEq

/-- Modelled from the spec: the class `Alias` is declared in `requite/alias.hpp`, not
among the sources. Its members are those `alias.cpp` reads and writes: the name, the
back-references to the declaring expression and the containing scope, the owned
attribute set, and the module and object targets. The member `_symbol`, whose class
is not among the sources either, is left out: no member function modelled here reads
or writes it. -/
structure Alias where
  _name : String := ""
  _expression_ptr : Option Expression := none
  _attributes : Attributes := {}
  _module_ptr : Option Module := none
  _object_ptr : Option Object := none
  _containing_scope_ptr : Option Scope := none

namespace Alias

def setName (self : Alias) (name : String) : Outcome Alias :=
  REQUITE_ASSERT (!name.isEmpty) self <|
  REQUITE_ASSERT self._name.isEmpty self <|
  Outcome.returned { self with _name := name }

def getName (self : Alias) : String := self._name

def getHasName (self : Alias) : Bool := !self._name.isEmpty

def setExpression (self : Alias) (expression : Expression) : Outcome Alias :=
  REQUITE_ASSERT (expression.getOpcode == Opcode.ALIAS) self <|
  setSingleRef self._expression_ptr expression self
    (fun ptr => { self with _expression_ptr := ptr })

def getAttributes (self : Alias) : Attributes := self._attributes

def setModule (self : Alias) (module : Module) : Outcome Alias :=
  setSingleRef self._module_ptr module self (fun ptr => { self with _module_ptr := ptr })

def setObject (self : Alias) (object : Object) : Outcome Alias :=
  setSingleRef self._object_ptr object self (fun ptr => { self with _object_ptr := ptr })

def getObjectPtr (self : Alias) : Option Object := self._object_ptr

def getHasContainingScope (self : Alias) : Bool :=
  self._containing_scope_ptr.isSome

def setContainingScope (self : Alias) (scope : Scope) : Outcome Alias :=
  setSingleRef self._containing_scope_ptr scope self
    (fun ptr => { self with _containing_scope_ptr := ptr })

end Alias

/-- A sample ascribe expression: branches `EXPORT`, `LABEL`, `INLINE` and a trailing
function declaration. -/
def ascribeExportLabelInline : Expression :=
  Expression.mk Opcode._ASCRIBE_LAST_BRANCH
    [Expression.mk Opcode.EXPORT [] none, Expression.mk Opcode.LABEL [] none,
      Expression.mk Opcode.INLINE [] none, Expression.mk Opcode.FUNCTION [] none] none

/-! ## Procedure and the overload chain (`include/requite/procedure.hpp`) -/

/-- Modelled from the spec: `enum class ProcedureType` (`requite/procedure_type.hpp`)
is not among the sources; the spec lists the categories entry point, free function,
method, extension, constructor and destructor, and `procedure.hpp` names `NONE`. -/
inductive ProcedureType where
  | NONE
  | ENTRY_POINT
  | FUNCTION
  | METHOD
  | EXTENSION
  | CONSTRUCTOR
  | DESTRUCTOR
  deriving DecidableEq

/-- A non-owning reference to a `Procedure`: its address, kept as a handle into the
store of procedures. -/
abbrev ProcedureRef := Nat

/-- The data members of `struct Procedure`. Pointers are optional handles. The owned
members `_scope` and `_signature`, whose classes are not among the sources, are left
out: no member function modelled here reads or writes them. -/
structure Procedure where
  _mangled_name : String := ""
  _type : ProcedureType := ProcedureType.NONE
  _attributes : Attributes := {}
  _named_procedure_group_ptr : Option Nat := none
  _ascribe_ptr : Option Expression := none
  _prototype_implementation_ptr : Option ProcedureRef := none
  _next_procedure_ptr : Option ProcedureRef := none
  _llvm_function_type_ptr : Option Nat := none
  _llvm_function_ptr : Option Nat := none
  _llvm_block_ptr : Option Nat := none

namespace Procedure

/-- Modelled from the spec: `Procedure::setNextProcedure` is declared in
`procedure.hpp` and defined in `procedure.cpp`, which is not among the sources. The
link is write-once, set through `setSingleRef` like the back-references of
`alias.cpp`. -/
def setNextProcedure (self : Procedure) (procedure : ProcedureRef) : Outcome Procedure :=
  setSingleRef self._next_procedure_ptr procedure self
    (fun ptr => { self with _next_procedure_ptr := ptr })

/-- Modelled from the spec: `Procedure::getHasNextProcedure` (defined in the absent
`procedure.cpp`) tells whether the next-procedure link is set. -/
def getHasNextProcedure (self : Procedure) : Bool :=
  self._next_procedure_ptr.isSome

/-- Modelled from the spec: `Procedure::getNextProcedure` (defined in the absent
`procedure.cpp`) follows the next-procedure link; `none` stands for the contract
violation of following a link that is not set. -/
def getNextProcedure (self : Procedure) : Option ProcedureRef :=
  self._next_procedure_ptr

end Procedure

/-- The procedures of a module, addressed by their handles. -/
abbrev ProcedureStore := ProcedureRef → Procedure

/-- Modelled from the spec: the class `NamedProcedureGroup` is not among the sources;
it anchors the chain of the procedures declared under one name. -/
structure NamedProcedureGroup where
  _first_procedure_ptr : Option ProcedureRef := none

/-- Modelled from the spec: linking procedures under one name, in the given order:
each procedure is linked to the one after it by `setNextProcedure`. -/
def linkProcedures : List ProcedureRef → ProcedureStore → Outcome ProcedureStore
  | [], store => Outcome.returned store
  | [_], store => Outcome.returned store
  | p :: q :: rest, store =>
    (((store p).setNextProcedure q).map (fun linked => Function.update store p linked)).andThen
      (linkProcedures (q :: rest))

/-- Modelled from the spec: the group anchor of procedures linked in the given order
refers to the first of them. -/
def groupAnchor (procedures : List ProcedureRef) : NamedProcedureGroup :=
  { _first_procedure_ptr := procedures.head? }

/-- Modelled from the spec: the walk of a chain from procedure `p`, testing
`getHasNextProcedure` and following `getNextProcedure`; it lists the procedures
visited. `fuel` bounds the number of procedures visited; `none` means the bound was
reached (or a link that is not set was followed). -/
def walkChain (store : ProcedureStore) : Nat → ProcedureRef → Option (List ProcedureRef)
  | 0, _ => none
  | fuel + 1, p =>
    if (store p).getHasNextProcedure then
      match (store p).getNextProcedure with
      | some q => (walkChain store fuel q).map (fun visited => p :: visited)
      | none => none
    else
      some [p]

/-- Modelled from the spec: the walk of the overload chain from the group anchor. -/
def walkGroup (store : ProcedureStore) (group : NamedProcedureGroup) (fuel : Nat) :
    Option (List ProcedureRef) :=
  match group._first_procedure_ptr with
  | none => some []
  | some p => walkChain store fuel p

/-- The source opcode of each target of `getUniversalizedValue`: reading the cases of
the switch from right to left. Every other opcode is sent to `__ERROR`. -/
def universalizedValueSource (target : Opcode) : Opcode :=
  match target with
  | Opcode._FROM_FRONT_OF_VALUE => Opcode.FROM_FRONT
  | Opcode._FROM_BACK_OF_VALUE => Opcode.FROM_BACK
  | Opcode._TRUNCATE_FRONT_OF_VALUE => Opcode.TRUNCATE_FRONT
  | Opcode._TRUNCATE_BACK_OF_VALUE => Opcode.TRUNCATE_BACK
  | Opcode._AT_VALUE => Opcode.AT
  | Opcode._ADDRESS_OF_VALUE => Opcode.ADDRESS
  | Opcode._COPY_VALUE => Opcode.COPY
  | Opcode._MOVE_VALUE => Opcode.MOVE
  | Opcode._DESTROY_VALUE => Opcode.DESTROY
  | Opcode._DROP_VALUE => Opcode.DROP
  | Opcode._EXPAND_VALUE => Opcode.EXPAND
  | Opcode._BAKE_VALUE => Opcode.BAKE
  | Opcode._FIRST_VARIADIC_ARGUMENT_OF_VALUE => Opcode.FIRST_VARIADIC_ARGUMENT
  | Opcode._NEXT_VARIADIC_ARGUMENT_OF_VALUE => Opcode.NEXT_VARIADIC_ARGUMENT
  | Opcode._SIZE_OF_VALUE => Opcode.SIZE
  | Opcode._DEPTH_OF_VALUE => Opcode.DEPTH
  | Opcode._COUNT_OF_VALUE => Opcode.COUNT
  | Opcode._NAME_OF_VALUE => Opcode.NAME
  | Opcode._LINE_OF_VALUE => Opcode.LINE
  | Opcode._COLUMN_OF_VALUE => Opcode.COLUMN
  | Opcode._TYPE_OF_VALUE => Opcode.TYPE
  | _ => Opcode.__ERROR

/-- The source opcode of each target of `getUniversalizedSymbol`: reading the cases of
the switch from right to left. Every other opcode is sent to `__NONE`. -/
def universalizedSymbolSource (target : Opcode) : Opcode :=
  match target with
  | Opcode._EXPAND_VALUE => Opcode.EXPAND
  | Opcode._MANGLED_NAME_OF_SYMBOL => Opcode.MANGLED_NAME
  | Opcode._SIZE_OF_TYPE => Opcode.SIZE
  | Opcode._DEPTH_OF_TYPE => Opcode.DEPTH
  | Opcode._COUNT_OF_TYPE => Opcode.COUNT
  | Opcode._NAME_OF_SYMBOL => Opcode.NAME
  | Opcode._COLUMN_OF_SYMBOL => Opcode.COLUMN
  | Opcode.ARE_SAME => Opcode.IS
  | Opcode._UNDERLYING_OF_TYPE => Opcode.UNDERLYING
  | _ => Opcode.__NONE

/-- The opcodes below the end marker `__LAST`, in the order of the enumeration. -/
def opcodesBelowLast : List Opcode :=
  (List.range OPCODE_COUNT).map Opcode.ofNat

/-- The comparison `Attributes::operator==`: two sets are equal when their bit vectors
are. -/
def Attributes.operator_eq (self other : Attributes) : Bool :=
  self._flags == other._flags

/-- The comparison `Attributes::operator!=`. -/
def Attributes.operator_ne (self other : Attributes) : Bool :=
  !(self.operator_eq other)

/-! ## Auxiliary facts -/

theorem REQUITE_ASSERT_of_true {σ : Type} (cond : Bool) (self : σ) (rest : Outcome σ)
    (h : cond = true) : REQUITE_ASSERT cond self rest = rest := by
  simp [REQUITE_ASSERT, h]

theorem REQUITE_ASSERT_of_false {σ : Type} (cond : Bool) (self : σ) (rest : Outcome σ)
    (h : cond = false) : REQUITE_ASSERT cond self rest = Outcome.contractViolation self := by
  simp [REQUITE_ASSERT, h]

theorem Expression.getOpcode_withOpcode (self : Expression) (opcode : Opcode) :
    (self.withOpcode opcode).getOpcode = opcode := by
  cases self; rfl

theorem Expression.setOpcode_of_unset (self : Expression) (opcode : Opcode)
    (h : self.getOpcode = Opcode.__NONE) :
    self.setOpcode opcode = Outcome.returned (self.withOpcode opcode) := by
  have hc : (self._opcode == Opcode.__NONE) = true := by
    simpa [Expression.getOpcode] using h
  simp [Expression.setOpcode, REQUITE_ASSERT_of_true _ _ _ hc]

theorem Expression.setOpcode_of_set (self : Expression) (opcode : Opcode)
    (h : self.getOpcode ≠ Opcode.__NONE) :
    self.setOpcode opcode = Outcome.contractViolation self := by
  have hc : (self._opcode == Opcode.__NONE) = false := by
    simpa [Expression.getOpcode] using h
  simp [Expression.setOpcode, REQUITE_ASSERT_of_false _ _ _ hc]

/-- The test made by the second assertion of `changeOpcode`. -/
def Expression.changeAllowed (self : Expression) (opcode : Opcode) : Bool :=
  self.getIsOperation || (getHasTextData opcode && getHasTextData self._opcode)

theorem Expression.changeOpcode_of_unset (self : Expression) (opcode : Opcode)
    (h : self.getOpcode = Opcode.__NONE) :
    self.changeOpcode opcode = Outcome.contractViolation self := by
  have hc : (self._opcode != Opcode.__NONE) = false := by
    simpa [Expression.getOpcode] using h
  simp [Expression.changeOpcode, REQUITE_ASSERT_of_false _ _ _ hc]

theorem Expression.changeOpcode_of_allowed (self : Expression) (opcode : Opcode)
    (h : self.getOpcode ≠ Opcode.__NONE) (ha : self.changeAllowed opcode = true) :
    self.changeOpcode opcode = Outcome.returned (self.withOpcode opcode) := by
  have hc : (self._opcode != Opcode.__NONE) = true := by
    simpa [Expression.getOpcode] using h
  unfold Expression.changeOpcode
  rw [REQUITE_ASSERT_of_true _ _ _ hc]
  exact REQUITE_ASSERT_of_true _ _ _ ha

theorem Expression.changeOpcode_of_not_allowed (self : Expression) (opcode : Opcode)
    (h : self.getOpcode ≠ Opcode.__NONE) (ha : self.changeAllowed opcode = false) :
    self.changeOpcode opcode = Outcome.contractViolation self := by
  have hc : (self._opcode != Opcode.__NONE) = true := by
    simpa [Expression.getOpcode] using h
  unfold Expression.changeOpcode
  rw [REQUITE_ASSERT_of_true _ _ _ hc]
  exact REQUITE_ASSERT_of_false _ _ _ ha

/-! ## The opcode state machine: `setOpcode` and `changeOpcode` -/

/-- C1: on an expression in the Set state, `changeOpcode B` returns normally exactly
when the current opcode is an operation or both the current opcode and `B` carry
text data; and when it returns, `getOpcode` gives `B`. -/
theorem changeOpcode_succeeds_iff (e : Expression) (B : Opcode)
    (hSet : e.getOpcode ≠ Opcode.__NONE) :
    ((e.changeOpcode B).succeeded = true ↔
        (e.getIsOperation = true ∨
          (getHasTextData e.getOpcode = true ∧ getHasTextData B = true))) ∧
      ((e.changeOpcode B).succeeded = true → (e.changeOpcode B).state.getOpcode = B) := by
  cases ha : e.changeAllowed B with
  | true =>
    rw [Expression.changeOpcode_of_allowed e B hSet ha]
    refine ⟨⟨fun _ => ?_, fun _ => rfl⟩, fun _ => Expression.getOpcode_withOpcode e B⟩
    simpa [Expression.changeAllowed, Expression.getOpcode, and_comm] using ha
  | false =>
    rw [Expression.changeOpcode_of_not_allowed e B hSet ha]
    refine ⟨⟨fun h => ?_, fun h => ?_⟩, fun h => ?_⟩
    · simp [Outcome.succeeded] at h
    · exfalso
      have : e.changeAllowed B = true := by
        simpa [Expression.changeAllowed, Expression.getOpcode, and_comm] using h
      rw [ha] at this
      exact Bool.false_ne_true this
    · simp [Outcome.succeeded] at h

/-- Witness for C1: an identifier literal is recategorized to a string literal. -/
theorem changeOpcode_succeeds_iff_witness :
    ((Expression.mk Opcode.__IDENTIFIER_LITERAL [] none).changeOpcode
        Opcode.__STRING_LITERAL).succeeded = true ∧
      ((Expression.mk Opcode.__IDENTIFIER_LITERAL [] none).changeOpcode
        Opcode.__STRING_LITERAL).state.getOpcode = Opcode.__STRING_LITERAL :=
  have h := changeOpcode_succeeds_iff (Expression.mk Opcode.__IDENTIFIER_LITERAL [] none)
    Opcode.__STRING_LITERAL (by decide)
  ⟨h.1.2 (Or.inr ⟨by decide, by decide⟩), h.2 (h.1.2 (Or.inr ⟨by decide, by decide⟩))⟩

/-- C2 (as stated, refuted): with `A` the none sentinel the first `setOpcode` returns
and leaves the expression Unset, so the second `setOpcode` returns as well and the
opcode becomes `B`, here the integer literal. -/
theorem setOpcode_twice_counterexample :
    ¬ (((Expression.fresh.setOpcode Opcode.__NONE).state.setOpcode
          Opcode.__INTEGER_LITERAL).succeeded = false ∧
        ((Expression.fresh.setOpcode Opcode.__NONE).state.setOpcode
          Opcode.__INTEGER_LITERAL).state.getOpcode = Opcode.__NONE) := by
  decide

/-- C2 (amended): for every opcode `A` other than the none sentinel and every opcode
`B`, `setOpcode A` on a freshly constructed expression returns, and a following
`setOpcode B` is a contract violation that leaves the opcode `A`. -/
theorem setOpcode_twice_violation (A B : Opcode) (hA : A ≠ Opcode.__NONE) :
    (Expression.fresh.setOpcode A).succeeded = true ∧
      ((Expression.fresh.setOpcode A).state.setOpcode B).succeeded = false ∧
      ((Expression.fresh.setOpcode A).state.setOpcode B).state.getOpcode = A := by
  have h1 : Expression.fresh.setOpcode A = Outcome.returned (Expression.fresh.withOpcode A) :=
    Expression.setOpcode_of_unset _ _ rfl
  have h2 : (Expression.fresh.withOpcode A).getOpcode ≠ Opcode.__NONE := by
    rw [Expression.getOpcode_withOpcode]; exact hA
  rw [h1]
  simp only [Outcome.state]
  rw [Expression.setOpcode_of_set _ B h2]
  exact ⟨rfl, rfl, Expression.getOpcode_withOpcode _ A⟩

/-- Witness for C2 (amended): a call opcode is assigned, then a second assignment is
attempted. -/
theorem setOpcode_twice_violation_witness :
    (Expression.fresh.setOpcode Opcode._CALL).succeeded = true ∧
      ((Expression.fresh.setOpcode Opcode._CALL).state.setOpcode Opcode._ADD).succeeded = false ∧
      ((Expression.fresh.setOpcode Opcode._CALL).state.setOpcode Opcode._ADD).state.getOpcode =
        Opcode._CALL :=
  setOpcode_twice_violation Opcode._CALL Opcode._ADD (by decide)

/-- C3 (as stated, refuted): `setOpcode` with the none sentinel on an Unset expression
is not a contract violation; the call returns. -/
theorem setOpcode_none_counterexample :
    ¬ ((Expression.fresh.setOpcode Opcode.__NONE).succeeded = false) := by
  decide

/-- C3 (amended): `setOpcode` with the none sentinel is a contract violation on every
expression in the Set state; on an Unset expression the call returns and the
expression stays Unset. -/
theorem setOpcode_none (e : Expression) :
    (e.getOpcode ≠ Opcode.__NONE →
        (e.setOpcode Opcode.__NONE).succeeded = false ∧
          (e.setOpcode Opcode.__NONE).state.getOpcode = e.getOpcode) ∧
      (e.getOpcode = Opcode.__NONE →
        (e.setOpcode Opcode.__NONE).succeeded = true ∧
          (e.setOpcode Opcode.__NONE).state.getOpcode = Opcode.__NONE) := by
  constructor
  · intro h
    rw [Expression.setOpcode_of_set e _ h]
    exact ⟨rfl, rfl⟩
  · intro h
    rw [Expression.setOpcode_of_unset e _ h]
    exact ⟨rfl, Expression.getOpcode_withOpcode e _⟩

/-- Witness for C3 (amended): the none sentinel is rejected on an expression holding
an addition. -/
theorem setOpcode_none_witness :
    ((Expression.mk Opcode._ADD [] none).setOpcode Opcode.__NONE).succeeded = false ∧
      ((Expression.mk Opcode._ADD [] none).setOpcode Opcode.__NONE).state.getOpcode =
        (Expression.mk Opcode._ADD [] none).getOpcode :=
  (setOpcode_none (Expression.mk Opcode._ADD [] none)).1 (by decide)

/-- C4: for every opcode other than the none sentinel, `setOpcode` on an Unset
expression returns; afterwards `getOpcode` gives that opcode and `getIsNone` is
false. -/
theorem setOpcode_unset_succeeds (e : Expression) (op : Opcode)
    (hUnset : e.getIsNone = true) (hop : op ≠ Opcode.__NONE) :
    (e.setOpcode op).succeeded = true ∧
      (e.setOpcode op).state.getOpcode = op ∧
      (e.setOpcode op).state.getIsNone = false := by
  have h : e.getOpcode = Opcode.__NONE := by
    simpa [Expression.getIsNone] using hUnset
  rw [Expression.setOpcode_of_unset e op h]
  refine ⟨rfl, Expression.getOpcode_withOpcode e op, ?_⟩
  simp only [Outcome.state, Expression.getIsNone, Expression.getOpcode_withOpcode]
  simpa using hop

/-- Witness for C4: an identifier literal is assigned to a fresh expression. -/
theorem setOpcode_unset_succeeds_witness :
    (Expression.fresh.setOpcode Opcode.__IDENTIFIER_LITERAL).succeeded = true ∧
      (Expression.fresh.setOpcode Opcode.__IDENTIFIER_LITERAL).state.getOpcode =
        Opcode.__IDENTIFIER_LITERAL ∧
      (Expression.fresh.setOpcode Opcode.__IDENTIFIER_LITERAL).state.getIsNone = false :=
  setOpcode_unset_succeeds Expression.fresh Opcode.__IDENTIFIER_LITERAL (by decide) (by decide)

/-- C5: `changeOpcode` on an Unset expression is a contract violation for every
target opcode, and the expression is left as it was (in particular its opcode). -/
theorem changeOpcode_unset_violation (e : Expression) (B : Opcode)
    (hUnset : e.getOpcode = Opcode.__NONE) :
    (e.changeOpcode B).succeeded = false ∧
      (e.changeOpcode B).state = e ∧
      (e.changeOpcode B).state.getOpcode = Opcode.__NONE := by
  rw [Expression.changeOpcode_of_unset e B hUnset]
  exact ⟨rfl, rfl, hUnset⟩

/-- Witness for C5: recategorizing a fresh expression to a call. -/
theorem changeOpcode_unset_violation_witness :
    (Expression.fresh.changeOpcode Opcode._CALL).succeeded = false ∧
      (Expression.fresh.changeOpcode Opcode._CALL).state = Expression.fresh ∧
      (Expression.fresh.changeOpcode Opcode._CALL).state.getOpcode = Opcode.__NONE :=
  changeOpcode_unset_violation Expression.fresh Opcode._CALL rfl

/-- C6: `changeOpcode` fails for every target when the current opcode is a numeric
literal (integer or real); the opcode is left unchanged. -/
theorem changeOpcode_numeric_fails (e : Expression) (B : Opcode)
    (hNum : e.getIsNumeric = true) :
    (e.changeOpcode B).succeeded = false ∧
      (e.changeOpcode B).state.getOpcode = e.getOpcode := by
  have hcases : e.getOpcode = Opcode.__INTEGER_LITERAL ∨ e.getOpcode = Opcode.__REAL_LITERAL := by
    simpa [Expression.getIsNumeric, Expression.getIsInteger, Expression.getIsReal] using hNum
  have hSet : e.getOpcode ≠ Opcode.__NONE := by
    rcases hcases with h | h <;> rw [h] <;> decide
  have ha : e.changeAllowed B = false := by
    have hop : e._opcode = e.getOpcode := rfl
    unfold Expression.changeAllowed Expression.getIsOperation
    rcases hcases with h | h <;> rw [hop, h] <;> simp [getHasTextData] <;> decide
  rw [Expression.changeOpcode_of_not_allowed e B hSet ha]
  exact ⟨rfl, rfl⟩

/-- Witness for C6: an integer literal is not recategorized to a real literal. -/
theorem changeOpcode_numeric_fails_witness :
    ((Expression.mk Opcode.__INTEGER_LITERAL [] none).changeOpcode
        Opcode.__REAL_LITERAL).succeeded = false ∧
      ((Expression.mk Opcode.__INTEGER_LITERAL [] none).changeOpcode
        Opcode.__REAL_LITERAL).state.getOpcode =
        (Expression.mk Opcode.__INTEGER_LITERAL [] none).getOpcode :=
  changeOpcode_numeric_fails (Expression.mk Opcode.__INTEGER_LITERAL [] none)
    Opcode.__REAL_LITERAL (by decide)

/-! ## Derived queries of `Expression` -/

/-- C7: `getIsOperation` holds exactly when the position of the expression's opcode
in the enumeration is strictly greater than the position of the last literal opcode,
`__IDENTIFIER_LITERAL`. -/
theorem getIsOperation_iff_above_literals (e : Expression) :
    e.getIsOperation = true ↔ Opcode.__IDENTIFIER_LITERAL.toNat < e.getOpcode.toNat := by
  simp [Expression.getIsOperation]

/-- C8: for every expression exactly one of `getIsNone`, `getIsInteger`, `getIsReal`,
`getIsString`, `getIsCodeunit`, `getIsIdentifier`, `getIsOperation` is true, and
`getIsNumeric` is true exactly when `getIsInteger` or `getIsReal` is. -/
theorem derived_queries_exactly_one (e : Expression) :
    [e.getIsNone, e.getIsInteger, e.getIsReal, e.getIsString, e.getIsCodeunit,
        e.getIsIdentifier, e.getIsOperation].count true = 1 ∧
      (e.getIsNumeric = true ↔ (e.getIsInteger = true ∨ e.getIsReal = true)) := by
  constructor
  · cases e with
    | mk opcode branches data => cases opcode <;> rfl
  · simp [Expression.getIsNumeric]

/-! ## The classification table -/

/-- A word `a` contains the word `b` under the mask test `(a &&& b) == b` exactly
when every bit of `b` is a bit of `a`. -/
theorem land_eq_right_iff_testBit (a b : Nat) :
    a &&& b = b ↔ ∀ i, b.testBit i = true → a.testBit i = true := by
  constructor
  · intro h i hb
    have hi : (a &&& b).testBit i = true := by rw [h]; exact hb
    rw [Nat.testBit_and] at hi
    simp only [Bool.and_eq_true] at hi
    exact hi.1
  · intro h
    apply Nat.eq_of_testBit_eq
    intro i
    rw [Nat.testBit_and]
    cases hb : b.testBit i with
    | false => simp
    | true => simp [h i hb]

/-- C9: `_getHasFlags op required` is true exactly when every bit set in `required`
is set in `_getFlags op`. -/
theorem getHasFlags_iff_superset (op : Opcode) (required : _opcode._OpcodeFlags) :
    _getHasFlags op required = true ↔
      ∀ i, Nat.testBit required i = true → Nat.testBit (_getFlags op) i = true := by
  rw [← land_eq_right_iff_testBit]
  simp [_getHasFlags]

/-- C10: `getUniversalizedValue op` is the `__ERROR` sentinel or a valid opcode that
carries the intermediate-operation flag; and it is `__ERROR` whenever `op` is a
sentinel (`__NONE`, `__ERROR`, the end marker), one of the five literals, or itself
carries the intermediate-operation flag. -/
theorem getUniversalizedValue_error_or_intermediate (op : Opcode) :
    (getUniversalizedValue op = Opcode.__ERROR ∨
        (getIsValid (getUniversalizedValue op) = true ∧
          getIsIntermediateOperation (getUniversalizedValue op) = true)) ∧
      ((op = Opcode.__NONE ∨ op = Opcode.__ERROR ∨ op = Opcode.__LAST ∨
          op = Opcode.__INTEGER_LITERAL ∨ op = Opcode.__REAL_LITERAL ∨
          op = Opcode.__STRING_LITERAL ∨ op = Opcode.__CODEUNIT_LITERAL ∨
          op = Opcode.__IDENTIFIER_LITERAL ∨ getIsIntermediateOperation op = true) →
        getUniversalizedValue op = Opcode.__ERROR) := by
  cases op <;> decide

/-- Witness for C10: `FROM_FRONT` maps to a valid intermediate operation, and that
intermediate operation itself maps to `__ERROR`. -/
theorem getUniversalizedValue_error_or_intermediate_witness :
    (getIsValid (getUniversalizedValue Opcode.FROM_FRONT) = true ∧
        getIsIntermediateOperation (getUniversalizedValue Opcode.FROM_FRONT) = true) ∧
      getUniversalizedValue Opcode._FROM_FRONT_OF_VALUE = Opcode.__ERROR :=
  ⟨(getUniversalizedValue_error_or_intermediate Opcode.FROM_FRONT).1.resolve_left (by decide),
    (getUniversalizedValue_error_or_intermediate Opcode._FROM_FRONT_OF_VALUE).2
      (Or.inr (Or.inr (Or.inr (Or.inr (Or.inr (Or.inr (Or.inr (Or.inr (by decide)))))))))⟩

/-! ## Universalization for symbols, validity, names and bands -/

/-- C11 (as stated, refuted): `getUniversalizedSymbol IS` is `ARE_SAME`, which is not
the `__NONE` sentinel and does not carry the intermediate-operation flag. -/
theorem getUniversalizedSymbol_counterexample :
    ¬ (getUniversalizedSymbol Opcode.IS = Opcode.__NONE ∨
        getIsIntermediateOperation (getUniversalizedSymbol Opcode.IS) = true) := by
  decide

/-- C11 (amended): for every opcode other than `IS`, `getUniversalizedSymbol` gives
the `__NONE` sentinel or an opcode carrying the intermediate-operation flag; for `IS`
it gives `ARE_SAME`, a valid opcode without that flag. -/
theorem getUniversalizedSymbol_none_or_intermediate (op : Opcode) :
    (op ≠ Opcode.IS →
        (getUniversalizedSymbol op = Opcode.__NONE ∨
          getIsIntermediateOperation (getUniversalizedSymbol op) = true)) ∧
      (op = Opcode.IS →
        (getUniversalizedSymbol op = Opcode.ARE_SAME ∧
          getIsValid (getUniversalizedSymbol op) = true ∧
          getIsIntermediateOperation (getUniversalizedSymbol op) = false)) := by
  cases op <;> decide

/-- Witness for C11 (amended): `SIZE` maps to an intermediate operation. -/
theorem getUniversalizedSymbol_none_or_intermediate_witness :
    getUniversalizedSymbol Opcode.SIZE = Opcode.__NONE ∨
      getIsIntermediateOperation (getUniversalizedSymbol Opcode.SIZE) = true :=
  (getUniversalizedSymbol_none_or_intermediate Opcode.SIZE).1 (by decide)

/-- C12: `getUniversalizedValue` never returns `__NONE` and `getUniversalizedSymbol`
never returns `__ERROR`. -/
theorem universalize_sentinels_distinct (op : Opcode) :
    getUniversalizedValue op ≠ Opcode.__NONE ∧ getUniversalizedSymbol op ≠ Opcode.__ERROR := by
  cases op <;> decide

/-- C13: `getIsValid op` is false exactly when `op` is the none sentinel, the error
sentinel, or sits at or beyond the end marker `__LAST`; it is true for every other
opcode. -/
theorem getIsValid_false_iff (op : Opcode) :
    (getIsValid op = false ↔
        (op = Opcode.__NONE ∨ op = Opcode.__ERROR ∨ Opcode.__LAST.toNat ≤ op.toNat)) ∧
      (getIsValid op = true ↔
        (op ≠ Opcode.__NONE ∧ op ≠ Opcode.__ERROR ∧ op.toNat < Opcode.__LAST.toNat)) := by
  cases op <;> decide

/-- C14: `getName` returns a non-empty string for every opcode, the sentinels and the
end marker included. -/
theorem getName_nonempty (op : Opcode) :
    getName op ≠ "" ∧ 0 < (getName op).length := by
  cases op <;> decide

/-- C15: for every opcode below the end marker exactly one of the bands none, error,
literal, internal (intermediate-operation flag) and surface (valid, neither
internal-use-only nor intermediate-operation) holds. -/
theorem exactly_one_band (op : Opcode) (hBelow : op.toNat < Opcode.__LAST.toNat) :
    (classificationBands op).count true = 1 := by
  cases op <;> first | rfl | exact absurd hBelow (by decide)

/-- Witness for C15: the surface opcode `EXPORT`. -/
theorem exactly_one_band_witness :
    (classificationBands Opcode.EXPORT).count true = 1 :=
  exactly_one_band Opcode.EXPORT (by decide)

/-! ## Variable kinds and payload kinds -/

/-- C16: `getVariableType` and `getOpcode` are inverse to each other away from the
`NONE` kind, and `getOpcode NONE` is the `__ERROR` sentinel, whose kind is `NONE`. -/
theorem variableType_opcode_correspondence :
    (∀ t : VariableType, t ≠ VariableType.NONE → getVariableType (getOpcode t) = t) ∧
      (∀ o : Opcode, getVariableType o ≠ VariableType.NONE →
        getOpcode (getVariableType o) = o) ∧
      getOpcode VariableType.NONE = Opcode.__ERROR ∧
      getVariableType Opcode.__ERROR = VariableType.NONE := by
  refine ⟨?_, ?_, rfl, rfl⟩
  · intro t _
    cases t <;> rfl
  · intro o ho
    cases o <;> first | rfl | exact absurd rfl ho

/-- Witness for C16: the property kind and its declaring opcode. -/
theorem variableType_opcode_correspondence_witness :
    getVariableType (getOpcode VariableType.PROPERTY) = VariableType.PROPERTY ∧
      getOpcode (getVariableType Opcode.GLOBAL) = Opcode.GLOBAL :=
  ⟨variableType_opcode_correspondence.1 VariableType.PROPERTY (by decide),
    variableType_opcode_correspondence.2.1 Opcode.GLOBAL (by decide)⟩

/-- C17: the variable kind of an opcode is `LOCAL` exactly when the opcode has
ordered-variable data, `GLOBAL` or `PROPERTY` exactly when it has unordered-variable
data, and `NONE` exactly when it has neither. -/
theorem variableType_agrees_with_payload (o : Opcode) :
    (getVariableType o = VariableType.LOCAL ↔ getHasOrderedVariableData o = true) ∧
      ((getVariableType o = VariableType.GLOBAL ∨ getVariableType o = VariableType.PROPERTY) ↔
        getHasUnorderedVariableData o = true) ∧
      (getVariableType o = VariableType.NONE ↔
        (getHasOrderedVariableData o = false ∧ getHasUnorderedVariableData o = false)) := by
  cases o <;> decide

/-- C18: for every opcode at most one of the ten payload-kind predicates is true. -/
theorem payload_kinds_exclusive (op : Opcode) :
    [getHasTextData op, getHasIntegerData op, getHasScopeData op, getHasObjectData op,
        getHasOverloadData op, getHasLabelData op, getHasAliasData op,
        getHasOrderedVariableData op, getHasUnorderedVariableData op,
        getHasAnonymousFunctionData op].count true ≤ 1 := by
  cases op <;> decide

/-! ## Attribute sets -/

theorem Attributes.addAttribute_of_absent (self : Attributes) (type : AttributeType)
    (h : self.getHasAttribute type = false) :
    self.addAttribute type =
      Outcome.returned { self with _flags := self._flags ||| (1 <<< type) } := by
  have hc : (!self.getHasAttribute type) = true := by simp [h]
  simp [Attributes.addAttribute, REQUITE_ASSERT_of_true _ _ _ hc]

theorem Attributes.addAttribute_of_present (self : Attributes) (type : AttributeType)
    (h : self.getHasAttribute type = true) :
    self.addAttribute type = Outcome.contractViolation self := by
  have hc : (!self.getHasAttribute type) = false := by simp [h]
  simp [Attributes.addAttribute, REQUITE_ASSERT_of_false _ _ _ hc]

/-- Setting bit `type` makes exactly that bit true and leaves every other bit. -/
theorem Attributes.getHasAttribute_set (self : Attributes) (type k : AttributeType) :
    Attributes.getHasAttribute { self with _flags := self._flags ||| (1 <<< type) } k =
      (self.getHasAttribute k || decide (type = k)) := by
  simp [Attributes.getHasAttribute, Nat.testBit_or, Nat.one_shiftLeft, Nat.testBit_two_pow]

/-- The `doUntilLast` callback on a branch whose kind is a non-label attribute kind
already held by the set: one diagnostic, the failed mark, no change of the set. -/
theorem Attributes.doUntilLast_of_duplicate (T : AttributeTypes)
    (state : Context × MakeAttributesResult) (branch : Expression)
    (hNone : branchKind T branch ≠ T.NONE) (hLabel : branchKind T branch ≠ T.LABEL)
    (hHas : state.2.attributes.getHasAttribute (branchKind T branch) = true) :
    Attributes.makeAttributes.doUntilLast T state branch =
      Outcome.returned
        ({ messages := state.1.messages ++ [duplicateAttributeMessage T branch] },
          { state.2 with has_error := true }) := by
  have h1 : (T.getAttributeType branch.getOpcode != T.NONE) = true := by
    simpa [branchKind] using hNone
  have h2 : (T.getAttributeType branch.getOpcode != T.LABEL) = true := by
    simpa [branchKind] using hLabel
  have h3 : state.2.attributes.getHasAttribute (T.getAttributeType branch.getOpcode) = true :=
    hHas
  simp only [Attributes.makeAttributes.doUntilLast, REQUITE_ASSERT_of_true _ _ _ h1, h2, h3,
    if_true, Context.logSourceMessage, duplicateAttributeMessage, branchKind]

/-- The `doUntilLast` callback on a branch whose kind is a non-label attribute kind
the set does not hold yet: the kind is added, nothing else changes. -/
theorem Attributes.doUntilLast_of_new (T : AttributeTypes)
    (state : Context × MakeAttributesResult) (branch : Expression)
    (hNone : branchKind T branch ≠ T.NONE) (hLabel : branchKind T branch ≠ T.LABEL)
    (hHas : state.2.attributes.getHasAttribute (branchKind T branch) = false) :
    Attributes.makeAttributes.doUntilLast T state branch =
      Outcome.returned
        (state.1,
          { state.2 with
            attributes :=
              { state.2.attributes with
                _flags := state.2.attributes._flags ||| (1 <<< branchKind T branch) } }) := by
  have h1 : (T.getAttributeType branch.getOpcode != T.NONE) = true := by
    simpa [branchKind] using hNone
  have h2 : (T.getAttributeType branch.getOpcode != T.LABEL) = true := by
    simpa [branchKind] using hLabel
  have h3 : state.2.attributes.getHasAttribute (T.getAttributeType branch.getOpcode) = false :=
    hHas
  simp only [Attributes.makeAttributes.doUntilLast, REQUITE_ASSERT_of_true _ _ _ h1, h2, h3,
    if_true, Attributes.addAttribute_of_absent _ _ h3, Outcome.map, branchKind]
  simp

/-- The walk of `makeAttributes` over branches whose non-last members all have a
non-label attribute kind, started in a state whose set holds exactly the kinds in
`earlier`: it returns, one diagnostic is appended per repeated branch, the failed mark
is raised exactly when there is such a branch, the set gains the kinds of the
non-last branches, and the last branch becomes the trailing branch. -/
theorem Attributes.walk_of_attribute_kinds (T : AttributeTypes) :
    ∀ (branches : List Expression) (state : Context × MakeAttributesResult)
      (earlier : List AttributeType),
      (∀ b ∈ branches.dropLast, branchKind T b ≠ T.NONE ∧ branchKind T b ≠ T.LABEL) →
      (∀ k, state.2.attributes.getHasAttribute k = true ↔ k ∈ earlier) →
      ∃ final : Context × MakeAttributesResult,
        walkBranchDoUntilLastDoLast (Attributes.makeAttributes.doUntilLast T)
            Attributes.makeAttributes.doLast branches state = Outcome.returned final ∧
          final.1.messages = state.1.messages ++
            (repeatedBranches T earlier branches.dropLast).map (duplicateAttributeMessage T) ∧
          final.2.has_error =
            (state.2.has_error || !(repeatedBranches T earlier branches.dropLast).isEmpty) ∧
          (∀ k, final.2.attributes.getHasAttribute k = true ↔
            (k ∈ earlier ∨ k ∈ branches.dropLast.map (branchKind T))) ∧
          final.2.attributes._expression_ptr = state.2.attributes._expression_ptr ∧
          final.2.last_expression_ptr =
            (match branches.getLast? with
              | some last => some last
              | none => state.2.last_expression_ptr) := by
  intro branches
  induction branches with
  | nil =>
    intro state earlier _ hinv
    exact ⟨state, rfl, by simp [repeatedBranches], by simp [repeatedBranches],
      by simpa using hinv, rfl, rfl⟩
  | cons branch tail ih =>
    intro state earlier hk hinv
    cases tail with
    | nil =>
      refine ⟨(state.1, { state.2 with last_expression_ptr := some branch }), rfl, ?_, ?_, ?_,
        rfl, rfl⟩
      · simp [repeatedBranches]
      · simp [repeatedBranches]
      · simpa using hinv
    | cons next rest =>
      have hb : branchKind T branch ≠ T.NONE ∧ branchKind T branch ≠ T.LABEL :=
        hk branch (by simp [List.dropLast])
      have hk2 : ∀ b ∈ (next :: rest).dropLast,
          branchKind T b ≠ T.NONE ∧ branchKind T b ≠ T.LABEL := by
        intro b hmem
        exact hk b (by simp only [List.dropLast_cons₂]; exact List.mem_cons_of_mem _ hmem)
      have hdrop : (branch :: next :: rest).dropLast = branch :: (next :: rest).dropLast := by
        simp [List.dropLast]
      have hlast : (branch :: next :: rest).getLast? = (next :: rest).getLast? := by
        simp [List.getLast?]
      cases hHas : state.2.attributes.getHasAttribute (branchKind T branch) with
      | true =>
        have hin : branchKind T branch ∈ earlier := (hinv _).1 hHas
        have hinv2 : ∀ k,
            Attributes.getHasAttribute
                ({ state.2 with has_error := true } : MakeAttributesResult).attributes k = true ↔
              k ∈ branchKind T branch :: earlier := by
          intro k
          rw [List.mem_cons]
          constructor
          · intro h; exact Or.inr ((hinv k).1 h)
          · rintro (h | h)
            · rw [h]; exact hHas
            · exact (hinv k).2 h
        obtain ⟨final, hrun, hmsg, herr, hset, hptr, hl⟩ :=
          ih ({ messages := state.1.messages ++ [duplicateAttributeMessage T branch] },
              { state.2 with has_error := true }) (branchKind T branch :: earlier) hk2 hinv2
        refine ⟨final, ?_, ?_, ?_, ?_, hptr, ?_⟩
        · simp only [walkBranchDoUntilLastDoLast,
            Attributes.doUntilLast_of_duplicate T state branch hb.1 hb.2 hHas, Outcome.andThen]
          exact hrun
        · rw [hmsg, hdrop]
          simp [repeatedBranches, hin]
        · rw [herr, hdrop]
          simp [repeatedBranches, hin]
        · intro k
          rw [hset k, hdrop]
          simp only [List.mem_cons, List.map_cons]
          constructor
          · rintro ((h | h) | h)
            · exact Or.inl (h ▸ hin)
            · exact Or.inl h
            · exact Or.inr (Or.inr h)
          · rintro (h | h | h)
            · exact Or.inl (Or.inr h)
            · exact Or.inl (Or.inl h)
            · exact Or.inr h
        · rw [hl, hlast]
      | false =>
        have hnin : branchKind T branch ∉ earlier := by
          intro h
          have := (hinv _).2 h
          rw [hHas] at this
          exact Bool.false_ne_true this
        have hinv2 : ∀ k,
            Attributes.getHasAttribute
                ({ state.2 with
                    attributes :=
                      { state.2.attributes with
                        _flags := state.2.attributes._flags ||| (1 <<< branchKind T branch) } } :
                  MakeAttributesResult).attributes k = true ↔
              k ∈ branchKind T branch :: earlier := by
          intro k
          rw [List.mem_cons]
          show Attributes.getHasAttribute
              { state.2.attributes with
                _flags := state.2.attributes._flags ||| (1 <<< branchKind T branch) } k = true ↔ _
          rw [Attributes.getHasAttribute_set, Bool.or_eq_true, decide_eq_true_iff, hinv k]
          constructor
          · rintro (h | h)
            · exact Or.inr h
            · exact Or.inl h.symm
          · rintro (h | h)
            · exact Or.inr h.symm
            · exact Or.inl h
        obtain ⟨final, hrun, hmsg, herr, hset, hptr, hl⟩ :=
          ih (state.1,
              { state.2 with
                attributes :=
                  { state.2.attributes with
                    _flags := state.2.attributes._flags ||| (1 <<< branchKind T branch) } })
            (branchKind T branch :: earlier) hk2 hinv2
        refine ⟨final, ?_, ?_, ?_, ?_, hptr, ?_⟩
        · simp only [walkBranchDoUntilLastDoLast,
            Attributes.doUntilLast_of_new T state branch hb.1 hb.2 hHas, Outcome.andThen]
          exact hrun
        · rw [hmsg, hdrop]
          simp [repeatedBranches, hnin]
        · rw [herr, hdrop]
          simp [repeatedBranches, hnin]
        · intro k
          rw [hset k, hdrop]
          simp only [List.mem_cons, List.map_cons]
          constructor
          · rintro ((h | h) | h)
            · exact Or.inr (Or.inl h)
            · exact Or.inl h
            · exact Or.inr (Or.inr h)
          · rintro (h | h | h)
            · exact Or.inl (Or.inr h)
            · exact Or.inl (Or.inl h)
            · exact Or.inr h
        · rw [hl, hlast]

/-- What `makeAttributes` does before the walk: the fresh result back-references the
ascribe expression. -/
theorem Attributes.makeAttributes_eq_walk (T : AttributeTypes) (context : Context)
    (ascribe_expression : Expression) :
    Attributes.makeAttributes T context ascribe_expression =
      walkBranchDoUntilLastDoLast (Attributes.makeAttributes.doUntilLast T)
        Attributes.makeAttributes.doLast ascribe_expression.branches
        (context,
          { attributes := { _flags := 0, _expression_ptr := some ascribe_expression },
            has_error := false, last_expression_ptr := none }) := by
  rfl

/-- C19: when every non-last branch of the ascribe expression classifies to a
non-label attribute kind, `makeAttributes` returns; it appends exactly one duplicate
diagnostic, in walk order, for each non-last branch whose kind already occurred on an
earlier branch; `has_error` is set iff there is such a branch; and the returned set
holds exactly the kinds of the non-last branches. -/
theorem makeAttributes_duplicate_diagnostics (T : AttributeTypes) (context : Context)
    (ascribe_expression : Expression)
    (hKinds : ∀ b ∈ ascribe_expression.branches.dropLast,
      branchKind T b ≠ T.NONE ∧ branchKind T b ≠ T.LABEL) :
    ∃ (context_after : Context) (result : MakeAttributesResult),
      Attributes.makeAttributes T context ascribe_expression =
          Outcome.returned (context_after, result) ∧
        context_after.messages = context.messages ++
          (repeatedBranches T [] ascribe_expression.branches.dropLast).map
            (duplicateAttributeMessage T) ∧
        (result.has_error = true ↔
          repeatedBranches T [] ascribe_expression.branches.dropLast ≠ []) ∧
        (∀ k, result.attributes.getHasAttribute k = true ↔
          k ∈ ascribe_expression.branches.dropLast.map (branchKind T)) := by
  obtain ⟨final, hrun, hmsg, herr, hset, _, _⟩ :=
    Attributes.walk_of_attribute_kinds T ascribe_expression.branches
      (context,
        { attributes := { _flags := 0, _expression_ptr := some ascribe_expression },
          has_error := false, last_expression_ptr := none })
      [] hKinds (by intro k; simp [Attributes.getHasAttribute])
  refine ⟨final.1, final.2, ?_, hmsg, ?_, ?_⟩
  · rw [Attributes.makeAttributes_eq_walk]
    exact hrun
  · rw [herr]
    simp [List.isEmpty_iff]
  · intro k
    rw [hset k]
    simp

/-- Witness for C19: over `[EXPORT, EXPORT, payload]` the build returns with one
diagnostic, located at the second `EXPORT`, the failed mark, and a set that holds the
kind of `EXPORT` and no other kind. -/
theorem makeAttributes_duplicate_diagnostics_witness :
    ∃ (context_after : Context) (result : MakeAttributesResult),
      Attributes.makeAttributes sampleAttributeTypes { messages := [] } ascribeExportTwice =
          Outcome.returned (context_after, result) ∧
        context_after.messages =
          [duplicateAttributeMessage sampleAttributeTypes (Expression.mk Opcode.EXPORT [] none)] ∧
        result.has_error = true ∧
        (∀ k, result.attributes.getHasAttribute k = true ↔ k = 1) := by
  obtain ⟨context_after, result, hrun, hmsg, herr, hset⟩ :=
    makeAttributes_duplicate_diagnostics sampleAttributeTypes { messages := [] }
      ascribeExportTwice (by
        intro b hb
        have hb2 : b = Expression.mk Opcode.EXPORT [] none := by
          simpa [ascribeExportTwice, Expression.branches, List.dropLast] using hb
        rw [hb2]
        decide)
  have hrep : repeatedBranches sampleAttributeTypes [] ascribeExportTwice.branches.dropLast =
      [Expression.mk Opcode.EXPORT [] none] := by
    simp [ascribeExportTwice, Expression.branches, List.dropLast, repeatedBranches, branchKind,
      Expression.getOpcode, Expression._opcode, sampleAttributeTypes]
  refine ⟨context_after, result, hrun, ?_, ?_, ?_⟩
  · rw [hmsg, hrep]; rfl
  · rw [herr, hrep]; simp
  · intro k
    rw [hset k]
    simp [ascribeExportTwice, Expression.branches, List.dropLast, branchKind,
      Expression.getOpcode, Expression._opcode, sampleAttributeTypes]

/-- C20 (the code at the failing input): over branches `[LABEL, LABEL, payload]`, with
`LABEL` classifying to the label kind, `makeAttributes` does not complete: the second
`LABEL` passes the duplicate scan, which exempts the label kind, and then fails the
assertion of `addAttribute`. At that point the set holds the label kind, no diagnostic
has been recorded and the failed mark is not set. -/
theorem makeAttributes_label_twice_violation (T : AttributeTypes) (context : Context)
    (ascribe_opcode : Opcode) (payload : Expression)
    (hClass : T.getAttributeType Opcode.LABEL = T.LABEL) (hNone : T.LABEL ≠ T.NONE) :
    (Attributes.makeAttributes T context
        (Expression.mk ascribe_opcode
          [Expression.mk Opcode.LABEL [] none, Expression.mk Opcode.LABEL [] none, payload]
          none)).succeeded = false ∧
      (Attributes.makeAttributes T context
        (Expression.mk ascribe_opcode
          [Expression.mk Opcode.LABEL [] none, Expression.mk Opcode.LABEL [] none, payload]
          none)).state.2.attributes.getHasAttribute T.LABEL = true ∧
      (Attributes.makeAttributes T context
        (Expression.mk ascribe_opcode
          [Expression.mk Opcode.LABEL [] none, Expression.mk Opcode.LABEL [] none, payload]
          none)).state.1.messages = context.messages ∧
      (Attributes.makeAttributes T context
        (Expression.mk ascribe_opcode
          [Expression.mk Opcode.LABEL [] none, Expression.mk Opcode.LABEL [] none, payload]
          none)).state.2.has_error = false := by
  have hne : (T.LABEL != T.NONE) = true := by simpa using hNone
  have hrun : Attributes.makeAttributes T context
      (Expression.mk ascribe_opcode
        [Expression.mk Opcode.LABEL [] none, Expression.mk Opcode.LABEL [] none, payload]
        none) =
      Outcome.contractViolation
        (context,
          { attributes :=
              { _flags := 0 ||| (1 <<< T.LABEL),
                _expression_ptr := some (Expression.mk ascribe_opcode
                  [Expression.mk Opcode.LABEL [] none, Expression.mk Opcode.LABEL [] none,
                    payload] none) },
            has_error := false, last_expression_ptr := none }) := by
    rw [Attributes.makeAttributes_eq_walk]
    have hfirst : Attributes.getHasAttribute
        { _flags := 0, _expression_ptr := some (Expression.mk ascribe_opcode
            [Expression.mk Opcode.LABEL [] none, Expression.mk Opcode.LABEL [] none, payload]
            none) } T.LABEL = false := by
      simp [Attributes.getHasAttribute]
    have hsecond : Attributes.getHasAttribute
        { _flags := 0 ||| (1 <<< T.LABEL), _expression_ptr := some (Expression.mk ascribe_opcode
            [Expression.mk Opcode.LABEL [] none, Expression.mk Opcode.LABEL [] none, payload]
            none) } T.LABEL = true := by
      simp [Attributes.getHasAttribute, Nat.one_shiftLeft, Nat.testBit_two_pow_self]
    simp only [Expression.branches, walkBranchDoUntilLastDoLast,
      Attributes.makeAttributes.doUntilLast, Expression.getOpcode, Expression._opcode, hClass,
      REQUITE_ASSERT_of_true _ _ _ hne, bne_self_eq_false, Bool.false_eq_true, if_false,
      Attributes.addAttribute_of_absent _ _ hfirst, Outcome.map, Outcome.andThen,
      Attributes.addAttribute_of_present _ _ hsecond]
  rw [hrun]
  refine ⟨rfl, ?_, rfl, rfl⟩
  simp [Outcome.state, Attributes.getHasAttribute, Nat.one_shiftLeft, Nat.testBit_two_pow_self]

/-- Witness for C20: the sample kinds, an empty diagnostic sink and a function
declaration as the trailing branch. -/
theorem makeAttributes_label_twice_violation_witness :
    (Attributes.makeAttributes sampleAttributeTypes { messages := [] }
        (Expression.mk Opcode._ASCRIBE_LAST_BRANCH
          [Expression.mk Opcode.LABEL [] none, Expression.mk Opcode.LABEL [] none,
            Expression.mk Opcode.FUNCTION [] none]
          none)).succeeded = false :=
  (makeAttributes_label_twice_violation sampleAttributeTypes { messages := [] }
    Opcode._ASCRIBE_LAST_BRANCH (Expression.mk Opcode.FUNCTION [] none)
    (by decide) (by decide)).1

/-! ## Frame and invariants of the opcode state machine -/

theorem Expression.branches_withOpcode (self : Expression) (opcode : Opcode) :
    (self.withOpcode opcode).branches = self.branches := by
  cases self; rfl

theorem Expression.data_withOpcode (self : Expression) (opcode : Opcode) :
    (self.withOpcode opcode).data = self.data := by
  cases self; rfl

/-- Every call of `setOpcode` ends in the state it started in or in that state with
the opcode field rewritten. -/
theorem Expression.setOpcode_state (self : Expression) (opcode : Opcode) :
    (self.setOpcode opcode).state = self ∨
      (self.setOpcode opcode).state = self.withOpcode opcode := by
  by_cases h : self.getOpcode = Opcode.__NONE
  · right; rw [Expression.setOpcode_of_unset self opcode h]; rfl
  · left; rw [Expression.setOpcode_of_set self opcode h]; rfl

/-- Every call of `changeOpcode` ends in the state it started in or in that state with
the opcode field rewritten. -/
theorem Expression.changeOpcode_state (self : Expression) (opcode : Opcode) :
    (self.changeOpcode opcode).state = self ∨
      (self.changeOpcode opcode).state = self.withOpcode opcode := by
  by_cases h : self.getOpcode = Opcode.__NONE
  · left; rw [Expression.changeOpcode_of_unset self opcode h]; rfl
  · cases ha : self.changeAllowed opcode with
    | true => right; rw [Expression.changeOpcode_of_allowed self opcode h ha]; rfl
    | false => left; rw [Expression.changeOpcode_of_not_allowed self opcode h ha]; rfl

/-- A call of `changeOpcode` that returned was made in the Set state and passed the
test of the second assertion. -/
theorem Expression.changeOpcode_succeeded (self : Expression) (opcode : Opcode)
    (h : (self.changeOpcode opcode).succeeded = true) :
    self.getOpcode ≠ Opcode.__NONE ∧ self.changeAllowed opcode = true ∧
      self.changeOpcode opcode = Outcome.returned (self.withOpcode opcode) := by
  by_cases hs : self.getOpcode = Opcode.__NONE
  · rw [Expression.changeOpcode_of_unset self opcode hs] at h
    exact absurd h (by simp [Outcome.succeeded])
  · cases ha : self.changeAllowed opcode with
    | true => exact ⟨hs, rfl, Expression.changeOpcode_of_allowed self opcode hs ha⟩
    | false =>
      rw [Expression.changeOpcode_of_not_allowed self opcode hs ha] at h
      exact absurd h (by simp [Outcome.succeeded])

/-- C25: `setOpcode` and `changeOpcode` leave the branch list and the payload of the
expression unchanged, whether the call returns or ends in a contract violation. -/
theorem opcode_calls_frame (e : Expression) (opcode : Opcode) :
    ((e.setOpcode opcode).state.branches = e.branches ∧
        (e.setOpcode opcode).state.data = e.data) ∧
      ((e.changeOpcode opcode).state.branches = e.branches ∧
        (e.changeOpcode opcode).state.data = e.data) := by
  constructor
  · rcases Expression.setOpcode_state e opcode with h | h <;> rw [h]
    · exact ⟨rfl, rfl⟩
    · exact ⟨Expression.branches_withOpcode e opcode, Expression.data_withOpcode e opcode⟩
  · rcases Expression.changeOpcode_state e opcode with h | h <;> rw [h]
    · exact ⟨rfl, rfl⟩
    · exact ⟨Expression.branches_withOpcode e opcode, Expression.data_withOpcode e opcode⟩

/-- C27 (as stated, refuted): an expression holding the operation `_CALL` is in the Set
state, `changeOpcode` with the none sentinel returns, and afterwards `getIsNone` is
true. -/
theorem changeOpcode_to_none_counterexample :
    (Expression.mk Opcode._CALL [] none).getIsNone = false ∧
      ((Expression.mk Opcode._CALL [] none).changeOpcode Opcode.__NONE).succeeded = true ∧
      ((Expression.mk Opcode._CALL [] none).changeOpcode Opcode.__NONE).state.getIsNone = true := by
  decide

/-- C27 (amended): for every expression in the Set state and every opcode `B` other
than the none sentinel, if `changeOpcode B` returns then the resulting opcode is not
the none sentinel. -/
theorem changeOpcode_stays_set (e : Expression) (B : Opcode)
    (_hSet : e.getOpcode ≠ Opcode.__NONE) (hB : B ≠ Opcode.__NONE)
    (hOk : (e.changeOpcode B).succeeded = true) :
    (e.changeOpcode B).state.getOpcode ≠ Opcode.__NONE ∧
      (e.changeOpcode B).state.getIsNone = false := by
  have hrun := (Expression.changeOpcode_succeeded e B hOk).2.2
  have hop : (e.changeOpcode B).state.getOpcode = B := by
    rw [hrun]; exact Expression.getOpcode_withOpcode e B
  refine ⟨by rw [hop]; exact hB, ?_⟩
  simp only [Expression.getIsNone, hop]
  simpa using hB

/-- Witness for C27 (amended): a call is lowered to the addition opcode. -/
theorem changeOpcode_stays_set_witness :
    ((Expression.mk Opcode._CALL [] none).changeOpcode Opcode._ADD).state.getOpcode ≠
        Opcode.__NONE ∧
      ((Expression.mk Opcode._CALL [] none).changeOpcode Opcode._ADD).state.getIsNone = false :=
  changeOpcode_stays_set (Expression.mk Opcode._CALL [] none) Opcode._ADD
    (by decide) (by decide) (by decide)

/-- An expression holding one of the five literal opcodes is in the Set state and is
not an operation. -/
theorem isLiteral_not_operation (e : Expression)
    (hLit : e.getIsInteger = true ∨ e.getIsReal = true ∨ e.getIsString = true ∨
      e.getIsCodeunit = true ∨ e.getIsIdentifier = true) :
    e.getOpcode ≠ Opcode.__NONE ∧ e.getIsOperation = false := by
  simp only [Expression.getIsInteger, Expression.getIsReal, Expression.getIsString,
    Expression.getIsCodeunit, Expression.getIsIdentifier, beq_iff_eq] at hLit
  unfold Expression.getIsOperation
  rcases hLit with h | h | h | h | h <;> rw [h] <;> decide

/-- C28: when the current opcode `A` is one of the five literal opcodes and
`changeOpcode B` returns, both `A` and `B` are textual literals (string, codeunit or
identifier), the new opcode is `B`, and `getIsOperation` is still false. -/
theorem changeOpcode_literal_stays_literal (e : Expression) (B : Opcode)
    (hLit : e.getIsInteger = true ∨ e.getIsReal = true ∨ e.getIsString = true ∨
      e.getIsCodeunit = true ∨ e.getIsIdentifier = true)
    (hOk : (e.changeOpcode B).succeeded = true) :
    getHasTextData e.getOpcode = true ∧ getHasTextData B = true ∧
      (e.changeOpcode B).state.getOpcode = B ∧
      (e.changeOpcode B).state.getIsOperation = false := by
  obtain ⟨_, hallow, hrun⟩ := Expression.changeOpcode_succeeded e B hOk
  have hnop := (isLiteral_not_operation e hLit).2
  have htext : getHasTextData B = true ∧ getHasTextData e.getOpcode = true := by
    simpa [Expression.changeAllowed, hnop, Expression.getOpcode] using hallow
  have hop : (e.changeOpcode B).state.getOpcode = B := by
    rw [hrun]; exact Expression.getOpcode_withOpcode e B
  refine ⟨htext.2, htext.1, hop, ?_⟩
  unfold Expression.getIsOperation
  rw [hop]
  have hB := htext.1
  simp only [getHasTextData, Bool.or_eq_true, beq_iff_eq] at hB
  rcases hB with (h | h) | h <;> rw [h] <;> decide

/-- Witness for C28: an identifier literal narrowed to a codeunit literal. -/
theorem changeOpcode_literal_stays_literal_witness :
    getHasTextData (Expression.mk Opcode.__IDENTIFIER_LITERAL [] none).getOpcode = true ∧
      getHasTextData Opcode.__CODEUNIT_LITERAL = true ∧
      ((Expression.mk Opcode.__IDENTIFIER_LITERAL [] none).changeOpcode
        Opcode.__CODEUNIT_LITERAL).state.getOpcode = Opcode.__CODEUNIT_LITERAL ∧
      ((Expression.mk Opcode.__IDENTIFIER_LITERAL [] none).changeOpcode
        Opcode.__CODEUNIT_LITERAL).state.getIsOperation = false :=
  changeOpcode_literal_stays_literal (Expression.mk Opcode.__IDENTIFIER_LITERAL [] none)
    Opcode.__CODEUNIT_LITERAL (by decide) (by decide)

/-! ## Flag constants -/

/-- C29: each of the 21 named flag constants is a single bit below bit 32 and the 21
constants are pairwise distinct; `_ANY` is the union of the 18 role flags and shares
no bit with the converging, internal-use-only and intermediate-operation flags; and
when the flags of an opcode are a single named flag `f`, the superset test of
`_getHasFlags` for a named flag `g` succeeds only if `f = g`. -/
theorem named_flags_single_bits :
    (∀ f ∈ namedFlags, ∃ k, k < 32 ∧ f = 1 <<< k) ∧
      namedFlags.length = 21 ∧ namedFlags.Nodup ∧
      _opcode._ANY = roleFlags.foldl (fun acc r => acc ||| r) 0 ∧
      (∀ i, Nat.testBit _opcode._ANY i = true ↔ ∃ r ∈ roleFlags, Nat.testBit r i = true) ∧
      (∀ c ∈ classificationFlags, _opcode._ANY &&& c = 0) ∧
      (∀ (op : Opcode) (f g : _opcode._OpcodeFlags), f ∈ namedFlags → g ∈ namedFlags →
        _getFlags op = f → _getHasFlags op g = true → f = g) := by
  have hpair : ∀ f ∈ namedFlags, ∀ g ∈ namedFlags, (f &&& g) = g → f = g := by decide
  have hany : _opcode._ANY = roleFlags.foldl (fun acc r => acc ||| r) 0 := by decide
  refine ⟨by decide, by decide, by decide, hany, ?_, by decide, ?_⟩
  · intro i
    constructor
    · intro h
      rw [hany] at h
      simp only [roleFlags, List.foldl_cons, List.foldl_nil, Nat.testBit_or, Bool.or_eq_true,
        Nat.zero_testBit, Bool.false_eq_true, false_or] at h
      simp only [roleFlags, List.mem_cons, List.mem_singleton, exists_eq_or_imp, exists_eq_left,
        List.not_mem_nil, false_and, exists_false, or_false]
      tauto
    · rintro ⟨r, hr, hbit⟩
      rw [hany]
      simp only [roleFlags, List.mem_cons, List.mem_singleton, List.not_mem_nil, or_false] at hr
      simp only [roleFlags, List.foldl_cons, List.foldl_nil, Nat.testBit_or, Bool.or_eq_true,
        Nat.zero_testBit, Bool.false_eq_true, false_or]
      rcases hr with h | h | h | h | h | h | h | h | h | h | h | h | h | h | h | h | h | h <;>
        (rw [h] at hbit; simp only [hbit, true_or, or_true])
  · intro op f g hf hg hflags hhas
    have hland : (f &&& g) = g := by
      simpa [_getHasFlags, hflags] using hhas
    exact hpair f hf g hg hland

/-- Witness for C29: `STRINGIFY` has the single flag `_MATTE_VALUE`; the superset test
succeeds for `_MATTE_VALUE`, and the two named flags are the same. -/
theorem named_flags_single_bits_witness :
    _getFlags Opcode.STRINGIFY = _opcode._MATTE_VALUE :=
  named_flags_single_bits.2.2.2.2.2.2 Opcode.STRINGIFY (_getFlags Opcode.STRINGIFY)
    _opcode._MATTE_VALUE (by decide) (by decide) rfl (by decide)

/-! ## Universalization and reflective roles -/

/-- C30: for every surface opcode, `getUniversalizedValue` differs from `__ERROR`
exactly when the opcode carries at least one value-reflective role flag. -/
theorem getUniversalizedValue_iff_value_reflective (op : Opcode)
    (hSurface : getIsValid op = true ∧ getIsInternalUseOnly op = false ∧
      getIsIntermediateOperation op = false) :
    getUniversalizedValue op ≠ Opcode.__ERROR ↔
      (_getHasFlags op _opcode._VALUE_REFLECTIVE_LOCAL_STATEMENT = true ∨
        _getHasFlags op _opcode._VALUE_REFLECTIVE_DESTINATION = true ∨
        _getHasFlags op _opcode._VALUE_REFLECTIVE_VALUE = true ∨
        _getHasFlags op _opcode._VALUE_REFLECTIVE_JUNCTION = true ∨
        _getHasFlags op _opcode._VALUE_REFLECTIVE_SYMBOL = true) := by
  revert hSurface
  cases op <;> decide

/-- Witness for C30: `DESTROY` is a surface opcode with the value-reflective
local-statement flag. -/
theorem getUniversalizedValue_iff_value_reflective_witness :
    getUniversalizedValue Opcode.DESTROY ≠ Opcode.__ERROR :=
  (getUniversalizedValue_iff_value_reflective Opcode.DESTROY (by decide)).2
    (Or.inl (by decide))

/-! ## Attribute sets: `addAttribute` -/

/-- C22: if the set already holds kind `k`, `addAttribute k` is a contract violation
and the set is unchanged; if it does not, `addAttribute k` returns, afterwards
`getHasAttribute k` is true and `getHasAttribute j` is unchanged for every other kind
`j`. This holds for every kind `k`, the non-label kinds in particular. -/
theorem addAttribute_guard (S : Attributes) (k : AttributeType) :
    (S.getHasAttribute k = true →
        (S.addAttribute k).succeeded = false ∧ (S.addAttribute k).state = S) ∧
      (S.getHasAttribute k = false →
        (S.addAttribute k).succeeded = true ∧
          (S.addAttribute k).state.getHasAttribute k = true ∧
          ∀ j, j ≠ k → (S.addAttribute k).state.getHasAttribute j = S.getHasAttribute j) := by
  constructor
  · intro h
    rw [Attributes.addAttribute_of_present S k h]
    exact ⟨rfl, rfl⟩
  · intro h
    rw [Attributes.addAttribute_of_absent S k h]
    refine ⟨rfl, ?_, ?_⟩
    · simp only [Outcome.state]
      rw [Attributes.getHasAttribute_set]
      simp
    · intro j hj
      simp only [Outcome.state]
      rw [Attributes.getHasAttribute_set]
      have : decide (k = j) = false := by simpa using fun h => hj h.symm
      simp [this]

/-- Witness for C22: kind 1 is added to the empty set, and a second addition to the
resulting set is a contract violation. -/
theorem addAttribute_guard_witness :
    ((({} : Attributes).addAttribute 1).succeeded = true ∧
        (({} : Attributes).addAttribute 1).state.getHasAttribute 1 = true) ∧
      ((({ _flags := 2 } : Attributes).addAttribute 1).succeeded = false ∧
        (({ _flags := 2 } : Attributes).addAttribute 1).state = { _flags := 2 }) :=
  ⟨⟨((addAttribute_guard {} 1).2 (by decide)).1, ((addAttribute_guard {} 1).2 (by decide)).2.1⟩,
    (addAttribute_guard { _flags := 2 } 1).1 (by decide)⟩

/-! ## Alias -/

theorem isEmpty_eq_false_iff (s : String) : s.isEmpty = false ↔ s ≠ "" := by
  rw [← Bool.not_eq_true, String.isEmpty_iff]

theorem Alias.setName_of_ok (self : Alias) (name : String)
    (hn : name ≠ "") (hs : self._name = "") :
    self.setName name = Outcome.returned { self with _name := name } := by
  have h1 : (!name.isEmpty) = true := by
    simpa [isEmpty_eq_false_iff] using hn
  have h2 : self._name.isEmpty = true := by
    simpa [String.isEmpty_iff] using hs
  unfold Alias.setName
  rw [REQUITE_ASSERT_of_true _ _ _ h1, REQUITE_ASSERT_of_true _ _ _ h2]

theorem Alias.setName_of_empty_argument (self : Alias) (name : String) (hn : name = "") :
    self.setName name = Outcome.contractViolation self := by
  have h1 : (!name.isEmpty) = false := by
    simpa [String.isEmpty_iff] using hn
  unfold Alias.setName
  rw [REQUITE_ASSERT_of_false _ _ _ h1]

theorem Alias.setName_of_named (self : Alias) (name : String) (hs : self._name ≠ "") :
    self.setName name = Outcome.contractViolation self := by
  by_cases hn : name = ""
  · exact Alias.setName_of_empty_argument self name hn
  · have h1 : (!name.isEmpty) = true := by
      simpa [isEmpty_eq_false_iff] using hn
    have h2 : self._name.isEmpty = false := (isEmpty_eq_false_iff _).2 hs
    unfold Alias.setName
    rw [REQUITE_ASSERT_of_true _ _ _ h1, REQUITE_ASSERT_of_false _ _ _ h2]

theorem Alias.getHasName_eq_false_iff (self : Alias) :
    self.getHasName = false ↔ self._name = "" := by
  simp [Alias.getHasName, String.isEmpty_iff]

/-- C23: `setName n` returns exactly when `n` is non-empty and the alias has no name
yet; after it returned, `getHasName` is true and `getName` gives `n`; and a second
`setName b` is then a contract violation for every `b`, the name staying `n`. -/
theorem setName_write_once (a : Alias) (n : String) :
    ((a.setName n).succeeded = true ↔ (n ≠ "" ∧ a.getHasName = false)) ∧
      ((a.setName n).succeeded = true →
        (a.setName n).state.getHasName = true ∧ (a.setName n).state.getName = n ∧
          ∀ b : String, ((a.setName n).state.setName b).succeeded = false ∧
            ((a.setName n).state.setName b).state.getName = n) := by
  rw [Alias.getHasName_eq_false_iff]
  by_cases hn : n = ""
  · rw [Alias.setName_of_empty_argument a n hn]
    simp [Outcome.succeeded, hn]
  · by_cases hs : a._name = ""
    · rw [Alias.setName_of_ok a n hn hs]
      refine ⟨⟨fun _ => ⟨hn, hs⟩, fun _ => rfl⟩, fun _ => ⟨?_, rfl, fun b => ?_⟩⟩
      · simpa [Outcome.state, Alias.getHasName, isEmpty_eq_false_iff] using hn
      · simp only [Outcome.state]
        rw [Alias.setName_of_named _ b (by simpa using hn)]
        exact ⟨rfl, rfl⟩
    · rw [Alias.setName_of_named a n hs]
      simp [Outcome.succeeded, hs]

/-- Witness for C23: a fresh alias is named `a`, then a second name `b` is refused. -/
theorem setName_write_once_witness :
    ((({} : Alias).setName "a").state.setName "b").succeeded = false ∧
      ((({} : Alias).setName "a").state.setName "b").state.getName = "a" :=
  ((setName_write_once {} "a").2 (by decide)).2.2 "b"

/-- C24 (as stated, refuted): on a fresh alias `setModule` returns, a following
`setObject` returns as well, and in the state reached both targets are set. -/
theorem alias_targets_counterexample :
    (({} : Alias).setModule { handle := 0 }).succeeded = true ∧
      ((({} : Alias).setModule { handle := 0 }).state.setObject { handle := 0 }).succeeded =
        true ∧
      ((({} : Alias).setModule { handle := 0 }).state.setObject
        { handle := 0 }).state._module_ptr.isSome = true ∧
      ((({} : Alias).setModule { handle := 0 }).state.setObject
        { handle := 0 }).state._object_ptr.isSome = true := by
  decide

/-- C24 (amended): the module target and the object target are each write-once and
independent of each other: `setModule` returns exactly when no module target is set,
`setObject` exactly when no object target is set; a call that returns sets its own
target and leaves the other one as it was, and a refused call changes nothing. -/
theorem alias_targets_write_once (a : Alias) (module : Module) (object : Object) :
    ((a.setModule module).succeeded = true ↔ a._module_ptr = none) ∧
      ((a.setModule module).succeeded = true →
        (a.setModule module).state._module_ptr = some module) ∧
      (a.setModule module).state._object_ptr = a._object_ptr ∧
      ((a.setModule module).succeeded = false → (a.setModule module).state = a) ∧
      ((a.setObject object).succeeded = true ↔ a._object_ptr = none) ∧
      ((a.setObject object).succeeded = true →
        (a.setObject object).state._object_ptr = some object) ∧
      (a.setObject object).state._module_ptr = a._module_ptr ∧
      ((a.setObject object).succeeded = false → (a.setObject object).state = a) := by
  cases a with
  | mk name expression_ptr attributes module_ptr object_ptr containing_scope_ptr =>
    cases module_ptr <;> cases object_ptr <;>
      simp [Alias.setModule, Alias.setObject, setSingleRef, REQUITE_ASSERT,
        Outcome.succeeded, Outcome.state]

/-- Witness for C24 (amended): on an alias whose module target is set, a second
`setModule` is refused and changes nothing. -/
theorem alias_targets_write_once_witness :
    (({ _module_ptr := some { handle := 0 } } : Alias).setModule { handle := 1 }).state =
      { _module_ptr := some { handle := 0 } } :=
  (alias_targets_write_once { _module_ptr := some { handle := 0 } } { handle := 1 }
    { handle := 0 }).2.2.2.1 (by decide)

/-! ## `makeAttributes`: the trailing branch -/

/-- The `doUntilLast` callback on a branch of the label kind that the set does not
hold yet: the kind is added, nothing else changes. -/
theorem Attributes.doUntilLast_of_label (T : AttributeTypes)
    (state : Context × MakeAttributesResult) (branch : Expression)
    (hNone : branchKind T branch ≠ T.NONE) (hLabel : branchKind T branch = T.LABEL)
    (hHas : state.2.attributes.getHasAttribute (branchKind T branch) = false) :
    Attributes.makeAttributes.doUntilLast T state branch =
      Outcome.returned
        (state.1,
          { state.2 with
            attributes :=
              { state.2.attributes with
                _flags := state.2.attributes._flags ||| (1 <<< branchKind T branch) } }) := by
  have h1 : (T.getAttributeType branch.getOpcode != T.NONE) = true := by
    simpa [branchKind] using hNone
  have h2 : (T.getAttributeType branch.getOpcode != T.LABEL) = false := by
    simpa [branchKind] using hLabel
  have h3 : state.2.attributes.getHasAttribute (T.getAttributeType branch.getOpcode) = false :=
    hHas
  simp only [Attributes.makeAttributes.doUntilLast, REQUITE_ASSERT_of_true _ _ _ h1, h2,
    Attributes.addAttribute_of_absent _ _ h3, Outcome.map, branchKind]
  simp

/-- The `doUntilLast` callback returns on every branch whose kind is not `NONE` and,
if it is the label kind, is not yet held by the set. Afterwards the set holds the
kind of the branch besides what it held; the back-reference and the trailing branch
are untouched. -/
theorem Attributes.doUntilLast_returns (T : AttributeTypes)
    (state : Context × MakeAttributesResult) (branch : Expression)
    (hNone : branchKind T branch ≠ T.NONE)
    (hOnce : branchKind T branch = T.LABEL →
      state.2.attributes.getHasAttribute (branchKind T branch) = false) :
    ∃ next : Context × MakeAttributesResult,
      Attributes.makeAttributes.doUntilLast T state branch = Outcome.returned next ∧
        (∀ j, next.2.attributes.getHasAttribute j = true ↔
          (state.2.attributes.getHasAttribute j = true ∨ j = branchKind T branch)) ∧
        next.2.attributes._expression_ptr = state.2.attributes._expression_ptr ∧
        next.2.last_expression_ptr = state.2.last_expression_ptr := by
  have hadded : ∀ j, Attributes.getHasAttribute
      { state.2.attributes with
        _flags := state.2.attributes._flags ||| (1 <<< branchKind T branch) } j = true ↔
      (state.2.attributes.getHasAttribute j = true ∨ j = branchKind T branch) := by
    intro j
    rw [Attributes.getHasAttribute_set, Bool.or_eq_true, decide_eq_true_iff]
    exact ⟨fun h => h.imp id Eq.symm, fun h => h.imp id Eq.symm⟩
  cases hHas : state.2.attributes.getHasAttribute (branchKind T branch) with
  | false =>
    by_cases hLabel : branchKind T branch = T.LABEL
    · exact ⟨_, Attributes.doUntilLast_of_label T state branch hNone hLabel hHas, hadded,
        rfl, rfl⟩
    · exact ⟨_, Attributes.doUntilLast_of_new T state branch hNone hLabel hHas, hadded,
        rfl, rfl⟩
  | true =>
    have hLabel : branchKind T branch ≠ T.LABEL := by
      intro h
      have := hOnce h
      rw [hHas] at this
      exact Bool.noConfusion this
    refine ⟨_, Attributes.doUntilLast_of_duplicate T state branch hNone hLabel hHas, ?_,
      rfl, rfl⟩
    intro j
    constructor
    · intro h; exact Or.inl h
    · rintro (h | h)
      · exact h
      · rw [h]; exact hHas

/-- The walk of `makeAttributes` over branches whose non-last members all classify to
a kind other than `NONE`, the label kind occurring at most once among them and the
kinds in `earlier`: it returns, the set gains exactly the kinds of the non-last
branches, the back-reference is untouched and the last branch becomes the trailing
branch. -/
theorem Attributes.walk_of_label_once (T : AttributeTypes) :
    ∀ (branches : List Expression) (state : Context × MakeAttributesResult)
      (earlier : List AttributeType),
      (∀ b ∈ branches.dropLast, branchKind T b ≠ T.NONE) →
      (earlier ++ branches.dropLast.map (branchKind T)).count T.LABEL ≤ 1 →
      (∀ k, state.2.attributes.getHasAttribute k = true ↔ k ∈ earlier) →
      ∃ final : Context × MakeAttributesResult,
        walkBranchDoUntilLastDoLast (Attributes.makeAttributes.doUntilLast T)
            Attributes.makeAttributes.doLast branches state = Outcome.returned final ∧
          (∀ k, final.2.attributes.getHasAttribute k = true ↔
            (k ∈ earlier ∨ k ∈ branches.dropLast.map (branchKind T))) ∧
          final.2.attributes._expression_ptr = state.2.attributes._expression_ptr ∧
          final.2.last_expression_ptr =
            (match branches.getLast? with
              | some last => some last
              | none => state.2.last_expression_ptr) := by
  intro branches
  induction branches with
  | nil =>
    intro state earlier _ _ hinv
    exact ⟨state, rfl, by simpa using hinv, rfl, rfl⟩
  | cons branch tail ih =>
    intro state earlier hk hcount hinv
    cases tail with
    | nil =>
      exact ⟨(state.1, { state.2 with last_expression_ptr := some branch }), rfl,
        by simpa using hinv, rfl, rfl⟩
    | cons next rest =>
      have hdrop : (branch :: next :: rest).dropLast = branch :: (next :: rest).dropLast := by
        simp [List.dropLast]
      have hlast : (branch :: next :: rest).getLast? = (next :: rest).getLast? := by
        simp [List.getLast?]
      have hb : branchKind T branch ≠ T.NONE := hk branch (by rw [hdrop]; simp)
      have hk2 : ∀ b ∈ (next :: rest).dropLast, branchKind T b ≠ T.NONE := by
        intro b hmem
        exact hk b (by rw [hdrop]; exact List.mem_cons_of_mem _ hmem)
      rw [hdrop, List.map_cons, List.count_append, List.count_cons] at hcount
      have hOnce : branchKind T branch = T.LABEL →
          state.2.attributes.getHasAttribute (branchKind T branch) = false := by
        intro hl
        cases hHas : state.2.attributes.getHasAttribute (branchKind T branch) with
        | false => rfl
        | true =>
          exfalso
          have hin : T.LABEL ∈ earlier := hl ▸ (hinv _).1 hHas
          have hpos : 0 < earlier.count T.LABEL := List.count_pos_iff.2 hin
          have heq : (branchKind T branch == T.LABEL) = true := by simpa using hl
          rw [heq] at hcount
          simp only [if_true] at hcount
          omega
      obtain ⟨mid, hstep, hmidset, hmidptr, hmidlast⟩ :=
        Attributes.doUntilLast_returns T state branch hb hOnce
      have hinv2 : ∀ k, mid.2.attributes.getHasAttribute k = true ↔
          k ∈ branchKind T branch :: earlier := by
        intro k
        rw [hmidset k, hinv k, List.mem_cons]
        exact Or.comm
      have hcount2 : ((branchKind T branch :: earlier) ++
          (next :: rest).dropLast.map (branchKind T)).count T.LABEL ≤ 1 := by
        rw [List.count_append, List.count_cons]
        omega
      obtain ⟨final, hrun, hset, hptr, hl⟩ :=
        ih mid (branchKind T branch :: earlier) hk2 hcount2 hinv2
      refine ⟨final, ?_, ?_, hptr.trans hmidptr, ?_⟩
      · simp only [walkBranchDoUntilLastDoLast, hstep, Outcome.andThen]
        exact hrun
      · intro k
        rw [hset k, hdrop]
        simp only [List.mem_cons, List.map_cons]
        constructor
        · rintro ((h | h) | h)
          · exact Or.inr (Or.inl h)
          · exact Or.inl h
          · exact Or.inr (Or.inr h)
        · rintro (h | h | h)
          · exact Or.inl (Or.inr h)
          · exact Or.inl (Or.inl h)
          · exact Or.inr h
      · rw [hl, hlast, hmidlast]

/-- Where the label kind does not repeat, `makeAttributes` does return the trailing
branch: for every ascribe expression with at least one branch whose branches before
the last all classify to an attribute kind, the label kind occurring on at most one
of them, the build returns; the returned set holds exactly the kinds of the branches
before the last one, the trailing branch is the last branch, and the set
back-references the ascribe expression. -/
theorem Attributes.makeAttributes_of_label_once (T : AttributeTypes) (context : Context)
    (ascribe_expression : Expression)
    (hBranch : ascribe_expression.branches ≠ [])
    (hKinds : ∀ b ∈ ascribe_expression.branches.dropLast, branchKind T b ≠ T.NONE)
    (hLabel : (ascribe_expression.branches.dropLast.map (branchKind T)).count T.LABEL ≤ 1) :
    ∃ (context_after : Context) (result : MakeAttributesResult),
      Attributes.makeAttributes T context ascribe_expression =
          Outcome.returned (context_after, result) ∧
        (∀ k, result.attributes.getHasAttribute k = true ↔
          k ∈ ascribe_expression.branches.dropLast.map (branchKind T)) ∧
        result.last_expression_ptr = some (ascribe_expression.branches.getLast hBranch) ∧
        result.attributes._expression_ptr = some ascribe_expression := by
  obtain ⟨final, hrun, hset, hptr, hl⟩ :=
    Attributes.walk_of_label_once T ascribe_expression.branches
      (context,
        { attributes := { _flags := 0, _expression_ptr := some ascribe_expression },
          has_error := false, last_expression_ptr := none })
      [] hKinds (by simpa using hLabel) (by intro k; simp [Attributes.getHasAttribute])
  refine ⟨final.1, final.2, ?_, ?_, ?_, hptr⟩
  · rw [Attributes.makeAttributes_eq_walk]
    exact hrun
  · intro k
    rw [hset k]
    simp
  · rw [hl, List.getLast?_eq_getLast _ hBranch]

/-- Over `[EXPORT, LABEL, INLINE, payload]` the build returns, the trailing branch is
the payload and the set back-references the ascribe expression. -/
theorem Attributes.makeAttributes_of_label_once_example :
    ∃ (context_after : Context) (result : MakeAttributesResult),
      Attributes.makeAttributes sampleAttributeTypes { messages := [] }
          ascribeExportLabelInline = Outcome.returned (context_after, result) ∧
        (∀ k, result.attributes.getHasAttribute k = true ↔
          k ∈ ascribeExportLabelInline.branches.dropLast.map (branchKind sampleAttributeTypes)) ∧
        result.last_expression_ptr =
          some (ascribeExportLabelInline.branches.getLast
            (by simp [ascribeExportLabelInline, Expression.branches])) ∧
        result.attributes._expression_ptr = some ascribeExportLabelInline :=
  Attributes.makeAttributes_of_label_once sampleAttributeTypes { messages := [] }
    ascribeExportLabelInline (by simp [ascribeExportLabelInline, Expression.branches])
    (by decide) (by decide)

/-- The run of `makeAttributes` over branches `[LABEL, LABEL, payload]`, with `LABEL`
classifying to the label kind: the first `LABEL` is added; the second passes the
duplicate scan, which exempts the label kind, and fails the assertion of
`addAttribute`. The walk ends there, before the callback for the last branch. -/
theorem Attributes.makeAttributes_label_twice (T : AttributeTypes) (context : Context)
    (ascribe_opcode : Opcode) (payload : Expression)
    (hClass : T.getAttributeType Opcode.LABEL = T.LABEL) (hNone : T.LABEL ≠ T.NONE) :
    Attributes.makeAttributes T context
        (Expression.mk ascribe_opcode
          [Expression.mk Opcode.LABEL [] none, Expression.mk Opcode.LABEL [] none, payload]
          none) =
      Outcome.contractViolation
        (context,
          { attributes :=
              { _flags := 0 ||| (1 <<< T.LABEL),
                _expression_ptr := some (Expression.mk ascribe_opcode
                  [Expression.mk Opcode.LABEL [] none, Expression.mk Opcode.LABEL [] none,
                    payload] none) },
            has_error := false, last_expression_ptr := none }) := by
  have hne : (T.LABEL != T.NONE) = true := by simpa using hNone
  rw [Attributes.makeAttributes_eq_walk]
  have hfirst : Attributes.getHasAttribute
      { _flags := 0, _expression_ptr := some (Expression.mk ascribe_opcode
          [Expression.mk Opcode.LABEL [] none, Expression.mk Opcode.LABEL [] none, payload]
          none) } T.LABEL = false := by
    simp [Attributes.getHasAttribute]
  have hsecond : Attributes.getHasAttribute
      { _flags := 0 ||| (1 <<< T.LABEL), _expression_ptr := some (Expression.mk ascribe_opcode
          [Expression.mk Opcode.LABEL [] none, Expression.mk Opcode.LABEL [] none, payload]
          none) } T.LABEL = true := by
    simp [Attributes.getHasAttribute, Nat.one_shiftLeft, Nat.testBit_two_pow_self]
  simp only [Expression.branches, walkBranchDoUntilLastDoLast,
    Attributes.makeAttributes.doUntilLast, Expression.getOpcode, Expression._opcode, hClass,
    REQUITE_ASSERT_of_true _ _ _ hne, bne_self_eq_false, Bool.false_eq_true, if_false,
    Attributes.addAttribute_of_absent _ _ hfirst, Outcome.map, Outcome.andThen,
    Attributes.addAttribute_of_present _ _ hsecond]

/-- C21 (the code at the failing input): the ascribe expression with branches
`[LABEL, LABEL, payload]` has at least one branch and each branch before the last
classifies to an attribute kind, the label kind. `makeAttributes` nevertheless does
not return the last branch as the trailing branch: the build ends in a contract
violation at the second `LABEL`, and `last_expression_ptr` is still unset. The
back-reference to the ascribe expression had been set before the walk. -/
theorem makeAttributes_label_twice_no_trailing (T : AttributeTypes) (context : Context)
    (ascribe_opcode : Opcode) (payload : Expression)
    (hClass : T.getAttributeType Opcode.LABEL = T.LABEL) (hNone : T.LABEL ≠ T.NONE) :
    (Expression.mk ascribe_opcode
        [Expression.mk Opcode.LABEL [] none, Expression.mk Opcode.LABEL [] none, payload]
        none).branches.getLast? = some payload ∧
      (∀ b ∈ (Expression.mk ascribe_opcode
          [Expression.mk Opcode.LABEL [] none, Expression.mk Opcode.LABEL [] none, payload]
          none).branches.dropLast, branchKind T b = T.LABEL ∧ branchKind T b ≠ T.NONE) ∧
      (Attributes.makeAttributes T context
        (Expression.mk ascribe_opcode
          [Expression.mk Opcode.LABEL [] none, Expression.mk Opcode.LABEL [] none, payload]
          none)).succeeded = false ∧
      (Attributes.makeAttributes T context
        (Expression.mk ascribe_opcode
          [Expression.mk Opcode.LABEL [] none, Expression.mk Opcode.LABEL [] none, payload]
          none)).state.2.last_expression_ptr = none ∧
      (Attributes.makeAttributes T context
        (Expression.mk ascribe_opcode
          [Expression.mk Opcode.LABEL [] none, Expression.mk Opcode.LABEL [] none, payload]
          none)).state.2.attributes._expression_ptr =
        some (Expression.mk ascribe_opcode
          [Expression.mk Opcode.LABEL [] none, Expression.mk Opcode.LABEL [] none, payload]
          none) := by
  rw [Attributes.makeAttributes_label_twice T context ascribe_opcode payload hClass hNone]
  refine ⟨rfl, ?_, rfl, rfl, rfl⟩
  intro b hb
  have hb2 : b = Expression.mk Opcode.LABEL [] none := by
    simpa [Expression.branches, List.dropLast] using hb
  rw [hb2]
  have hk : branchKind T (Expression.mk Opcode.LABEL [] none) = T.LABEL := hClass
  exact ⟨hk, by rw [hk]; exact hNone⟩

/-- Witness for C21: the sample kinds, an empty diagnostic sink and a function
declaration as the trailing branch; the build fails and returns no trailing branch. -/
theorem makeAttributes_label_twice_no_trailing_witness :
    (Attributes.makeAttributes sampleAttributeTypes { messages := [] }
        (Expression.mk Opcode._ASCRIBE_LAST_BRANCH
          [Expression.mk Opcode.LABEL [] none, Expression.mk Opcode.LABEL [] none,
            Expression.mk Opcode.FUNCTION [] none]
          none)).succeeded = false ∧
      (Attributes.makeAttributes sampleAttributeTypes { messages := [] }
        (Expression.mk Opcode._ASCRIBE_LAST_BRANCH
          [Expression.mk Opcode.LABEL [] none, Expression.mk Opcode.LABEL [] none,
            Expression.mk Opcode.FUNCTION [] none]
          none)).state.2.last_expression_ptr = none :=
  ⟨(makeAttributes_label_twice_no_trailing sampleAttributeTypes { messages := [] }
      Opcode._ASCRIBE_LAST_BRANCH (Expression.mk Opcode.FUNCTION [] none)
      (by decide) (by decide)).2.2.1,
    (makeAttributes_label_twice_no_trailing sampleAttributeTypes { messages := [] }
      Opcode._ASCRIBE_LAST_BRANCH (Expression.mk Opcode.FUNCTION [] none)
      (by decide) (by decide)).2.2.2.1⟩

/-! ## The overload chain -/

theorem Procedure.setNextProcedure_of_unlinked (self : Procedure) (procedure : ProcedureRef)
    (h : self._next_procedure_ptr = none) :
    self.setNextProcedure procedure =
      Outcome.returned { self with _next_procedure_ptr := some procedure } := by
  simp [Procedure.setNextProcedure, setSingleRef, REQUITE_ASSERT, h]

/-- Linking distinct, not yet linked procedures returns; procedures outside the list
are untouched, and the walk from the first procedure visits the list in order. -/
theorem linkProcedures_chain :
    ∀ (procedures : List ProcedureRef) (store : ProcedureStore),
      procedures.Nodup →
      (∀ p ∈ procedures, (store p)._next_procedure_ptr = none) →
      ∃ linked : ProcedureStore,
        linkProcedures procedures store = Outcome.returned linked ∧
          (∀ r, r ∉ procedures → linked r = store r) ∧
          (∀ p rest, procedures = p :: rest → ∀ fuel, procedures.length ≤ fuel →
            walkChain linked fuel p = some procedures) := by
  intro procedures
  induction procedures with
  | nil =>
    intro store _ _
    exact ⟨store, rfl, fun _ _ => rfl, fun p rest h => by cases h⟩
  | cons p tail ih =>
    intro store hnodup hfresh
    cases tail with
    | nil =>
      refine ⟨store, rfl, fun _ _ => rfl, ?_⟩
      intro p' rest h fuel hfuel
      cases h
      have hp : (store p)._next_procedure_ptr = none := hfresh p (by simp)
      cases fuel with
      | zero => simp at hfuel
      | succ n => simp [walkChain, Procedure.getHasNextProcedure, hp]
    | cons q rest =>
      have hp : (store p)._next_procedure_ptr = none := hfresh p (by simp)
      have hpnot : p ∉ q :: rest := (List.nodup_cons.1 hnodup).1
      have hnodup2 : (q :: rest).Nodup := (List.nodup_cons.1 hnodup).2
      have hfresh2 : ∀ r ∈ q :: rest,
          (Function.update store p { store p with _next_procedure_ptr := some q } r
            )._next_procedure_ptr = none := by
        intro r hr
        have hne : r ≠ p := fun h => hpnot (h ▸ hr)
        rw [Function.update_noteq hne]
        exact hfresh r (List.mem_cons_of_mem _ hr)
      obtain ⟨linked, hrun, hframe, hwalk⟩ :=
        ih (Function.update store p { store p with _next_procedure_ptr := some q })
          hnodup2 hfresh2
      have hlinkedp : linked p = { store p with _next_procedure_ptr := some q } := by
        rw [hframe p hpnot, Function.update_same]
      refine ⟨linked, ?_, ?_, ?_⟩
      · simp only [linkProcedures, Procedure.setNextProcedure_of_unlinked _ _ hp, Outcome.map,
          Outcome.andThen]
        exact hrun
      · intro r hr
        have hr2 : r ∉ q :: rest := fun h => hr (List.mem_cons_of_mem _ h)
        have hne : r ≠ p := fun h => hr (by rw [h]; simp)
        rw [hframe r hr2, Function.update_noteq hne]
      · intro p' rest' h fuel hfuel
        cases h
        cases fuel with
        | zero => simp at hfuel
        | succ n =>
          have hn : (q :: rest).length ≤ n := by
            simp only [List.length_cons] at hfuel ⊢
            omega
          simp [walkChain, Procedure.getHasNextProcedure, Procedure.getNextProcedure, hlinkedp,
            hwalk q rest rfl n hn]

/-- C26: for every number of procedures, linking distinct, not yet linked procedures
under one name returns, and the walk of the chain from the group anchor then visits
exactly those procedures, each once, in the order they were linked; the walk ends
within as many steps as there are procedures. -/
theorem overload_chain_walk (store : ProcedureStore) (procedures : List ProcedureRef)
    (hDistinct : procedures.Nodup)
    (hFresh : ∀ p ∈ procedures, (store p)._next_procedure_ptr = none) :
    ∃ linked : ProcedureStore,
      linkProcedures procedures store = Outcome.returned linked ∧
        ∀ fuel, procedures.length ≤ fuel →
          walkGroup linked (groupAnchor procedures) fuel = some procedures := by
  obtain ⟨linked, hrun, _, hwalk⟩ := linkProcedures_chain procedures store hDistinct hFresh
  refine ⟨linked, hrun, ?_⟩
  intro fuel hfuel
  cases procedures with
  | nil => rfl
  | cons p rest =>
    simp only [walkGroup, groupAnchor, List.head?_cons]
    exact hwalk p rest rfl fuel hfuel

/-- Witness for C26: three fresh procedures at handles 4, 2 and 7 are linked; the walk
from the anchor visits 4, 2, 7. -/
theorem overload_chain_walk_witness :
    ∃ linked : ProcedureStore,
      linkProcedures [4, 2, 7] (fun _ => {}) = Outcome.returned linked ∧
        ∀ fuel, [4, 2, 7].length ≤ fuel →
          walkGroup linked (groupAnchor [4, 2, 7]) fuel = some [4, 2, 7] :=
  overload_chain_walk (fun _ => {}) [4, 2, 7] (by decide) (by intro p _; rfl)

/-! ## Universalization for symbols and reflective roles -/

/-- C31 (as stated, refuted): `EXPAND` is a surface opcode that `getUniversalizedSymbol`
maps to `_EXPAND_VALUE`, yet it carries none of the five symbol-reflective role
flags. -/
theorem getUniversalizedSymbol_expand_counterexample :
    (getIsValid Opcode.EXPAND = true ∧ getIsInternalUseOnly Opcode.EXPAND = false ∧
        getIsIntermediateOperation Opcode.EXPAND = false) ∧
      ¬ (getUniversalizedSymbol Opcode.EXPAND ≠ Opcode.__NONE ↔
        (_getHasFlags Opcode.EXPAND _opcode._SYMBOL_REFLECTIVE_LOCAL_STATEMENT = true ∨
          _getHasFlags Opcode.EXPAND _opcode._SYMBOL_REFLECTIVE_DESTINATION = true ∨
          _getHasFlags Opcode.EXPAND _opcode._SYMBOL_REFLECTIVE_VALUE = true ∨
          _getHasFlags Opcode.EXPAND _opcode._SYMBOL_REFLECTIVE_JUNCTION = true ∨
          _getHasFlags Opcode.EXPAND _opcode._SYMBOL_REFLECTIVE_SYMBOL = true)) := by
  decide

/-- C31 (amended): for every surface opcode other than `EXPAND` and `LINE`,
`getUniversalizedSymbol` differs from `__NONE` exactly when the opcode carries at
least one symbol-reflective role flag; `EXPAND` is mapped to `_EXPAND_VALUE` although
it carries no symbol-reflective role flag. -/
theorem getUniversalizedSymbol_iff_symbol_reflective (op : Opcode)
    (hSurface : getIsValid op = true ∧ getIsInternalUseOnly op = false ∧
      getIsIntermediateOperation op = false) :
    (op ≠ Opcode.EXPAND → op ≠ Opcode.LINE →
        (getUniversalizedSymbol op ≠ Opcode.__NONE ↔
          (_getHasFlags op _opcode._SYMBOL_REFLECTIVE_LOCAL_STATEMENT = true ∨
            _getHasFlags op _opcode._SYMBOL_REFLECTIVE_DESTINATION = true ∨
            _getHasFlags op _opcode._SYMBOL_REFLECTIVE_VALUE = true ∨
            _getHasFlags op _opcode._SYMBOL_REFLECTIVE_JUNCTION = true ∨
            _getHasFlags op _opcode._SYMBOL_REFLECTIVE_SYMBOL = true))) ∧
      (op = Opcode.EXPAND → getUniversalizedSymbol op = Opcode._EXPAND_VALUE) := by
  revert hSurface
  cases op <;> decide

/-- Witness for C31 (amended): `UNDERLYING` is a surface opcode with the
symbol-reflective symbol flag. -/
theorem getUniversalizedSymbol_iff_symbol_reflective_witness :
    getUniversalizedSymbol Opcode.UNDERLYING ≠ Opcode.__NONE :=
  ((getUniversalizedSymbol_iff_symbol_reflective Opcode.UNDERLYING (by decide)).1
    (by decide) (by decide)).2 (Or.inr (Or.inr (Or.inr (Or.inr (by decide)))))

/-- C32: when `getUniversalizedValue op` is not `__ERROR`, every value-reflective role
flag of `op` (local statement, destination, value, junction, symbol) is matched by
the matte flag of the same role on the target. -/
theorem getUniversalizedValue_reflective_to_matte (op : Opcode)
    (hMapped : getUniversalizedValue op ≠ Opcode.__ERROR) :
    (_getHasFlags op _opcode._VALUE_REFLECTIVE_LOCAL_STATEMENT = true →
        _getHasFlags (getUniversalizedValue op) _opcode._MATTE_LOCAL_STATEMENT = true) ∧
      (_getHasFlags op _opcode._VALUE_REFLECTIVE_DESTINATION = true →
        _getHasFlags (getUniversalizedValue op) _opcode._MATTE_DESTINATION = true) ∧
      (_getHasFlags op _opcode._VALUE_REFLECTIVE_VALUE = true →
        _getHasFlags (getUniversalizedValue op) _opcode._MATTE_VALUE = true) ∧
      (_getHasFlags op _opcode._VALUE_REFLECTIVE_JUNCTION = true →
        _getHasFlags (getUniversalizedValue op) _opcode._MATTE_JUNCTION = true) ∧
      (_getHasFlags op _opcode._VALUE_REFLECTIVE_SYMBOL = true →
        _getHasFlags (getUniversalizedValue op) _opcode._MATTE_SYMBOL = true) := by
  revert hMapped
  cases op <;> decide

/-- Witness for C32: `AT` is value-reflective as a destination and `_AT_VALUE` is a
matte destination. -/
theorem getUniversalizedValue_reflective_to_matte_witness :
    _getHasFlags (getUniversalizedValue Opcode.AT) _opcode._MATTE_DESTINATION = true :=
  (getUniversalizedValue_reflective_to_matte Opcode.AT (by decide)).2.1 (by decide)

/-- C33: when `getUniversalizedSymbol op` is not `__NONE`, every symbol-reflective role
flag of `op` (local statement, destination, value, junction, symbol) is matched by
the matte flag of the same role on the target. -/
theorem getUniversalizedSymbol_reflective_to_matte (op : Opcode)
    (hMapped : getUniversalizedSymbol op ≠ Opcode.__NONE) :
    (_getHasFlags op _opcode._SYMBOL_REFLECTIVE_LOCAL_STATEMENT = true →
        _getHasFlags (getUniversalizedSymbol op) _opcode._MATTE_LOCAL_STATEMENT = true) ∧
      (_getHasFlags op _opcode._SYMBOL_REFLECTIVE_DESTINATION = true →
        _getHasFlags (getUniversalizedSymbol op) _opcode._MATTE_DESTINATION = true) ∧
      (_getHasFlags op _opcode._SYMBOL_REFLECTIVE_VALUE = true →
        _getHasFlags (getUniversalizedSymbol op) _opcode._MATTE_VALUE = true) ∧
      (_getHasFlags op _opcode._SYMBOL_REFLECTIVE_JUNCTION = true →
        _getHasFlags (getUniversalizedSymbol op) _opcode._MATTE_JUNCTION = true) ∧
      (_getHasFlags op _opcode._SYMBOL_REFLECTIVE_SYMBOL = true →
        _getHasFlags (getUniversalizedSymbol op) _opcode._MATTE_SYMBOL = true) := by
  revert hMapped
  cases op <;> decide

/-- Witness for C33: `UNDERLYING` is symbol-reflective as a symbol and
`_UNDERLYING_OF_TYPE` is a matte symbol. -/
theorem getUniversalizedSymbol_reflective_to_matte_witness :
    _getHasFlags (getUniversalizedSymbol Opcode.UNDERLYING) _opcode._MATTE_SYMBOL = true :=
  (getUniversalizedSymbol_reflective_to_matte Opcode.UNDERLYING (by decide)).2.2.2.2
    (by decide)

/-- C34: the targets of universalization are not themselves contextual: applying
`getUniversalizedValue` twice gives `__ERROR`, applying `getUniversalizedSymbol` twice
gives `__NONE`. -/
theorem universalize_twice (op : Opcode) :
    getUniversalizedValue (getUniversalizedValue op) = Opcode.__ERROR ∧
      getUniversalizedSymbol (getUniversalizedSymbol op) = Opcode.__NONE := by
  cases op <;> exact ⟨rfl, rfl⟩

/-- Every opcode that `getUniversalizedValue` maps is recovered from its target. -/
theorem universalizedValueSource_getUniversalizedValue (op : Opcode)
    (h : getUniversalizedValue op ≠ Opcode.__ERROR) :
    universalizedValueSource (getUniversalizedValue op) = op := by
  revert h
  cases op <;> decide

/-- Every opcode that `getUniversalizedSymbol` maps is recovered from its target. -/
theorem universalizedSymbolSource_getUniversalizedSymbol (op : Opcode)
    (h : getUniversalizedSymbol op ≠ Opcode.__NONE) :
    universalizedSymbolSource (getUniversalizedSymbol op) = op := by
  revert h
  cases op <;> decide

/-- C35: `getUniversalizedValue` is injective on the opcodes it does not send to
`__ERROR`, and `getUniversalizedSymbol` is injective on the opcodes it does not send
to `__NONE`. -/
theorem universalize_injective (a b : Opcode) :
    (getUniversalizedValue a = getUniversalizedValue b →
        getUniversalizedValue a ≠ Opcode.__ERROR → a = b) ∧
      (getUniversalizedSymbol a = getUniversalizedSymbol b →
        getUniversalizedSymbol a ≠ Opcode.__NONE → a = b) := by
  constructor
  · intro heq hne
    have ha := universalizedValueSource_getUniversalizedValue a hne
    have hb := universalizedValueSource_getUniversalizedValue b (heq ▸ hne)
    rw [← ha, ← hb, heq]
  · intro heq hne
    have ha := universalizedSymbolSource_getUniversalizedSymbol a hne
    have hb := universalizedSymbolSource_getUniversalizedSymbol b (heq ▸ hne)
    rw [← ha, ← hb, heq]

/-- Witness for C35: `SIZE` is mapped by both universalizations, to two different
targets, and the hypotheses of injectivity hold for it. -/
theorem universalize_injective_witness :
    (getUniversalizedValue Opcode.SIZE ≠ Opcode.__ERROR ∧ Opcode.SIZE = Opcode.SIZE) ∧
      (getUniversalizedSymbol Opcode.SIZE ≠ Opcode.__NONE ∧ Opcode.SIZE = Opcode.SIZE) :=
  ⟨⟨by decide, (universalize_injective Opcode.SIZE Opcode.SIZE).1 rfl (by decide)⟩,
    ⟨by decide, (universalize_injective Opcode.SIZE Opcode.SIZE).2 rfl (by decide)⟩⟩

/-! ## Invalid opcodes and the internal-use-only flag -/

/-- C36: an opcode that is not valid (the none sentinel, the error sentinel, the end
marker) passes the flag test for none of the 18 role flags. -/
theorem invalid_opcode_no_role (op : Opcode) (hInvalid : getIsValid op = false) :
    (op = Opcode.__NONE ∨ op = Opcode.__ERROR ∨ op = Opcode.__LAST) ∧
      ∀ r ∈ roleFlags, _getHasFlags op r = false := by
  revert hInvalid
  cases op <;> decide

/-- Witness for C36: the none sentinel, whose only flag is internal-use-only, is not a
matte value. -/
theorem invalid_opcode_no_role_witness :
    _getHasFlags Opcode.__NONE _opcode._MATTE_VALUE = false :=
  (invalid_opcode_no_role Opcode.__NONE (by decide)).2 _opcode._MATTE_VALUE (by decide)

/-- C38: `getIsInternalUseOnly op` is true exactly when `op` is the none sentinel or
one of the five literal opcodes; it is false for the error sentinel, for the end
marker and for every opcode carrying the intermediate-operation flag. -/
theorem getIsInternalUseOnly_iff (op : Opcode) :
    (getIsInternalUseOnly op = true ↔
        (op = Opcode.__NONE ∨ op = Opcode.__INTEGER_LITERAL ∨ op = Opcode.__REAL_LITERAL ∨
          op = Opcode.__STRING_LITERAL ∨ op = Opcode.__CODEUNIT_LITERAL ∨
          op = Opcode.__IDENTIFIER_LITERAL)) ∧
      getIsInternalUseOnly Opcode.__ERROR = false ∧
      getIsInternalUseOnly Opcode.__LAST = false ∧
      (getIsIntermediateOperation op = true → getIsInternalUseOnly op = false) := by
  cases op <;> decide

/-- Witness for C38: the intermediate operation `_CALL` is not internal-use-only. -/
theorem getIsInternalUseOnly_iff_witness :
    getIsInternalUseOnly Opcode._CALL = false :=
  (getIsInternalUseOnly_iff Opcode._CALL).2.2.2 (by decide)

/-! ## Names -/

theorem mem_opcodesBelowLast (op : Opcode) (h : op ≠ Opcode.__LAST) :
    op ∈ opcodesBelowLast := by
  have hlt : op.toCtorIdx < OPCODE_COUNT := by
    revert h
    cases op <;> decide
  exact List.mem_map.2 ⟨op.toCtorIdx, List.mem_range.2 hlt, Opcode.ofNat_toCtorIdx op⟩

set_option maxRecDepth 100000 in
set_option maxHeartbeats 4000000 in
/-- The names of the opcodes below the end marker are pairwise different. -/
theorem getName_nodup_below_last : (opcodesBelowLast.map getName).Nodup := by
  decide

/-- C37: `getName` is injective on the opcodes other than `__LAST`; the end marker
shares its name, `__error`, with `__ERROR`, and that is the only name two opcodes
share. -/
theorem getName_injective_below_last (a b : Opcode) :
    (a ≠ Opcode.__LAST → b ≠ Opcode.__LAST → getName a = getName b → a = b) ∧
      (getName Opcode.__ERROR = "__error" ∧ getName Opcode.__LAST = "__error") ∧
      (getName a = getName b →
        a = b ∨ (a = Opcode.__ERROR ∧ b = Opcode.__LAST) ∨
          (a = Opcode.__LAST ∧ b = Opcode.__ERROR)) := by
  have hinj : ∀ x y : Opcode, x ≠ Opcode.__LAST → y ≠ Opcode.__LAST →
      getName x = getName y → x = y := fun x y hx hy h =>
    List.inj_on_of_nodup_map getName_nodup_below_last (mem_opcodesBelowLast x hx)
      (mem_opcodesBelowLast y hy) h
  refine ⟨hinj a b, ⟨rfl, rfl⟩, ?_⟩
  intro h
  by_cases ha : a = Opcode.__LAST
  · by_cases hb : b = Opcode.__LAST
    · exact Or.inl (ha.trans hb.symm)
    · right; right
      refine ⟨ha, ?_⟩
      have h2 : getName Opcode.__ERROR = getName b := by
        rw [← h, ha]; rfl
      exact (hinj Opcode.__ERROR b (by decide) hb h2).symm
  · by_cases hb : b = Opcode.__LAST
    · right; left
      refine ⟨?_, hb⟩
      have h2 : getName a = getName Opcode.__ERROR := by
        rw [h, hb]; rfl
      exact hinj a Opcode.__ERROR ha (by decide) h2
    · exact Or.inl (hinj a b ha hb h)

/-- Witness for C37: two opcodes below the end marker with different names, `_CALL` and
`_SIGNATURE`, are different; the hypotheses hold for `_CALL` taken twice. -/
theorem getName_injective_below_last_witness :
    Opcode._CALL ≠ Opcode.__LAST ∧ getName Opcode._CALL = "_call" ∧
      Opcode._CALL = Opcode._CALL :=
  ⟨by decide, rfl,
    (getName_injective_below_last Opcode._CALL Opcode._CALL).1 (by decide) (by decide) rfl⟩

/-! ## Attribute sets: `removeAttribute` and `clear` -/

theorem Attributes.removeAttribute_of_present (self : Attributes) (type : AttributeType)
    (h : self.getHasAttribute type = true) :
    self.removeAttribute type =
      Outcome.returned
        { self with _flags := self._flags ^^^ (self._flags &&& (1 <<< type)) } := by
  simp [Attributes.removeAttribute, REQUITE_ASSERT_of_true _ _ _ h]

theorem Attributes.removeAttribute_of_absent (self : Attributes) (type : AttributeType)
    (h : self.getHasAttribute type = false) :
    self.removeAttribute type = Outcome.contractViolation self := by
  simp [Attributes.removeAttribute, REQUITE_ASSERT_of_false _ _ _ h]

/-- Setting a bit that was clear and then clearing it gives back the word. -/
theorem set_then_reset_bit (flags k : Nat) (h : Nat.testBit flags k = false) :
    (flags ||| (1 <<< k)) ^^^ ((flags ||| (1 <<< k)) &&& (1 <<< k)) = flags := by
  apply Nat.eq_of_testBit_eq
  intro i
  simp only [Nat.testBit_xor, Nat.testBit_and, Nat.testBit_or, Nat.one_shiftLeft,
    Nat.testBit_two_pow]
  by_cases hik : k = i
  · subst hik
    simp [h]
  · simp [hik]

/-- C39: for a kind `k` the set does not hold, `addAttribute k` followed by
`removeAttribute k` returns both times and restores the set, which compares equal to
the original; `removeAttribute k` on a set that does not hold `k` is a contract
violation; and after `clear` the set holds no attribute. -/
theorem add_remove_restores (S : Attributes) (k : AttributeType) :
    (S.getHasAttribute k = false →
        (S.addAttribute k).succeeded = true ∧
          ((S.addAttribute k).state.removeAttribute k).succeeded = true ∧
          ((S.addAttribute k).state.removeAttribute k).state = S ∧
          ((S.addAttribute k).state.removeAttribute k).state.operator_eq S = true) ∧
      (S.getHasAttribute k = false →
        (S.removeAttribute k).succeeded = false ∧ (S.removeAttribute k).state = S) ∧
      S.clear.getHasAnyAttribute = false ∧
      (∀ j, S.clear.getHasAttribute j = false) := by
  refine ⟨?_, ?_, ?_, ?_⟩
  · intro h
    have hadd := Attributes.addAttribute_of_absent S k h
    have hhas : Attributes.getHasAttribute
        { S with _flags := S._flags ||| (1 <<< k) } k = true := by
      rw [Attributes.getHasAttribute_set]; simp
    have hrem := Attributes.removeAttribute_of_present _ k hhas
    have hflags := set_then_reset_bit S._flags k h
    rw [hadd]
    simp only [Outcome.state]
    rw [hrem]
    simp only [Outcome.state, Outcome.succeeded, Attributes.operator_eq, hflags]
    simp
  · intro h
    rw [Attributes.removeAttribute_of_absent S k h]
    exact ⟨rfl, rfl⟩
  · simp [Attributes.clear, Attributes.getHasAnyAttribute]
  · intro j
    simp [Attributes.clear, Attributes.getHasAttribute]

/-- Witness for C39: kind 3 is added to the set holding kinds 0 and 2, then removed. -/
theorem add_remove_restores_witness :
    ((({ _flags := 5 } : Attributes).addAttribute 3).state.removeAttribute 3).succeeded =
        true ∧
      ((({ _flags := 5 } : Attributes).addAttribute 3).state.removeAttribute 3).state =
        { _flags := 5 } ∧
      (({ _flags := 5 } : Attributes).removeAttribute 3).succeeded = false :=
  ⟨((add_remove_restores { _flags := 5 } 3).1 (by decide)).2.1,
    ((add_remove_restores { _flags := 5 } 3).1 (by decide)).2.2.1,
    ((add_remove_restores { _flags := 5 } 3).2.1 (by decide)).1⟩

end requite
